import Mathlib

/-!
# BeProgramBuilderOpengl: invocation and verification protocol

A shallow embedding of `radeon_gpu_analyzer_backend/be_program_builder_opengl.cpp`.

Stateful code is written in explicit state-passing style over a `World` that
records every externally visible effect (command-line printing, process launch,
sleep, file-existence probe) in the order in which the C++ performs it.  The
external collaborators that the translation unit only calls (the process
launcher, the file-existence test, the device-info singleton) are bundled in an
`Env` and left arbitrary.
-/

namespace BeProgramBuilderOpengl

/-! ## Data model -/

/-- The values of `beKA::beStatus` that this translation unit can return. -/
inductive beStatus
  | kBeStatusSuccess
  | kBeStatusInvalid
  | kBeStatusOpenglBuildError
  | kBeStatusFailedOutputVerification
  | kBeStatusOpenglVirtualContextLaunchFailed
  deriving DecidableEq, Repr

/-- Modelled from the spec: the `gtString` class of AMDTBaseTools is not part of
this translation unit.  A `gtString` is a finite sequence of characters. -/
structure gtString where
  chars : List Char
  deriving DecidableEq, Repr

namespace gtString

/-- The wide literal `L"..."`. -/
def L (s : String) : gtString := ⟨s.data⟩

/-- Modelled from the spec: `gtString::isEmpty`, true exactly for the string of length zero. -/
def isEmpty (s : gtString) : Bool := s.chars.isEmpty

/-- Modelled from the spec: `gtString::makeEmpty`, the string of length zero. -/
def makeEmpty (_s : gtString) : gtString := ⟨[]⟩

/-- Modelled from the spec: `gtString::asASCIICharArray`; a path and its
serialized text are the same sequence of characters. -/
def asASCIICharArray (s : gtString) : String := ⟨s.chars⟩

/-- Modelled from the spec: `gtString::toLowerCase`, which lower-cases every letter
(the search for the error marker is case-insensitive). -/
def toLowerCase (s : gtString) : gtString := ⟨s.chars.map Char.toLower⟩

/-- Left-to-right scan used by `find`: the index of the first position of `hay`
(counted from `i`) at which `needle` starts, or `-1`. -/
def findFrom (needle : List Char) : List Char → Nat → Int
  | [], i => if needle.isEmpty then (i : Int) else -1
  | c :: cs, i => if needle.isPrefixOf (c :: cs) then (i : Int) else findFrom needle cs (i + 1)

/-- Modelled from the spec: `gtString::find`, the index of the first occurrence of
`sub` in `s`, or `-1` when there is none. -/
def find (s sub : gtString) : Int := findFrom sub.chars s.chars 0

end gtString

/-- The record `BeProgramPipeline`: one string per pipeline stage. -/
structure BeProgramPipeline where
  vertex_shader : gtString
  tessellation_control_shader : gtString
  tessellation_evaluation_shader : gtString
  geometry_shader : gtString
  fragment_shader : gtString
  compute_shader : gtString
  deriving DecidableEq, Repr

/-- The fields of `OpenglOptions` that this translation unit reads. -/
structure OpenglOptions where
  pipeline_shaders : BeProgramPipeline
  isa_disassembly_output_files : BeProgramPipeline
  il_disassembly_output_files : BeProgramPipeline
  stats_output_files : BeProgramPipeline
  program_binary_filename : gtString
  chip_family : Nat
  chip_revision : Nat
  is_amd_isa_binaries_required : Bool
  is_amd_isa_disassembly_required : Bool
  is_il_disassembly_required : Bool
  is_stats_required : Bool
  deriving DecidableEq, Repr

/-! ## Effects and environment -/

/-- The six pipeline stages. -/
inductive Stage
  | vertex
  | tessellation_control
  | tessellation_evaluation
  | geometry
  | fragment
  | compute
  deriving DecidableEq, Repr

/-- The output file a probe is made for: it identifies the source line of
`VerifyVirtualContextOutput` that performed the probe. -/
inductive OutputSlot
  | isa (s : Stage)
  | il (s : Stage)
  | binary
  | stats (s : Stage)
  deriving DecidableEq, Repr

/-- What one call of `osExecAndGrabOutput` leaves behind: its boolean result and
the contents of the output buffer. -/
structure ExecOutcome where
  launch_succeeded : Bool
  captured_output : gtString
  deriving DecidableEq, Repr

/-- An externally visible effect. -/
inductive Effect
  | print (cmd : String) (should_print_cmd : Bool)
  | launch (cmd : String) (cancel_signal : Bool) (outcome : ExecOutcome)
  | sleep (ms : Nat)
  | probe (slot : OutputSlot) (path : String)
  deriving DecidableEq, Repr

/-- The build target that selects the path of the external tool. -/
inductive BuildTarget
  | linux
  | win64
  | win32
  deriving DecidableEq, Repr

/-- The collaborators outside this translation unit.
`osExecAndGrabOutput n cmd cancel` is the outcome of the call of the process
launcher that is preceded by `n` earlier launches; `IsFilePresent` is
`BeUtils::IsFilePresent`; `deviceInfoInstance` tells whether
`AMDTDeviceInfoUtils::Instance()` is non-null. -/
structure Env where
  target : BuildTarget
  deviceInfoInstance : Bool
  osExecAndGrabOutput : Nat → String → Bool → ExecOutcome
  IsFilePresent : String → Bool

/-- The effects performed so far, oldest first, and the number of launches among them. -/
structure World where
  trace : List Effect
  launches : Nat
  deriving DecidableEq, Repr

/-- The world before anything happened. -/
def World.init : World := ⟨[], 0⟩

/-- A call of `BeUtils::PrintCmdLine`. -/
def PrintCmdLine (cmd : String) (should_print_cmd : Bool) (w : World) : World :=
  { w with trace := w.trace ++ [Effect.print cmd should_print_cmd] }

/-- A call of `osExecAndGrabOutput`. -/
def osExecAndGrabOutput (env : Env) (cmd : String) (cancel_signal : Bool) (w : World) :
    ExecOutcome × World :=
  let o := env.osExecAndGrabOutput w.launches cmd cancel_signal
  (o, { trace := w.trace ++ [Effect.launch cmd cancel_signal o], launches := w.launches + 1 })

/-- A call of `osSleep`. -/
def osSleep (ms : Nat) (w : World) : World :=
  { w with trace := w.trace ++ [Effect.sleep ms] }

/-- A call of `BeUtils::IsFilePresent`, made for the output file `slot`. -/
def IsFilePresent (env : Env) (slot : OutputSlot) (path : String) (w : World) : Bool × World :=
  (env.IsFilePresent path, { w with trace := w.trace ++ [Effect.probe slot path] })

/-! ## The program -/

/-- The function `GetVirtualContextPath`: the path chosen by the preprocessor branches. -/
def GetVirtualContextPath (target : BuildTarget) : String :=
  match target with
  | .linux => "VirtualContext"
  | .win64 => "utils\\VirtualContext.exe"
  | .win32 => "x86\\VirtualContext.exe"

/-- One statement of the form
`ret &= (input.isEmpty() || BeUtils::IsFilePresent(output.asASCIICharArray()));`.
The right operand of `||` is evaluated only when the left one is false; the right
operand of `&=` is always evaluated. -/
def andStageCheck (env : Env) (slot : OutputSlot) (input output : gtString)
    (st : Bool × World) : Bool × World :=
  if input.isEmpty then (st.1 && true, st.2)
  else
    let r := IsFilePresent env slot output.asASCIICharArray st.2
    (st.1 && r.1, r.2)

/-- The function `VerifyVirtualContextOutput` (assertions are no-ops). -/
def VerifyVirtualContextOutput (env : Env) (options : OpenglOptions) (w : World) : Bool × World :=
  let st : Bool × World := (true, w)
  let st :=
    if options.is_amd_isa_disassembly_required then
      let st := andStageCheck env (.isa .compute) options.pipeline_shaders.compute_shader options.isa_disassembly_output_files.compute_shader st
      let st := andStageCheck env (.isa .fragment) options.pipeline_shaders.fragment_shader options.isa_disassembly_output_files.fragment_shader st
      let st := andStageCheck env (.isa .geometry) options.pipeline_shaders.geometry_shader options.isa_disassembly_output_files.geometry_shader st
      let st := andStageCheck env (.isa .tessellation_control) options.pipeline_shaders.tessellation_control_shader options.isa_disassembly_output_files.tessellation_control_shader st
      let st := andStageCheck env (.isa .tessellation_evaluation) options.pipeline_shaders.tessellation_evaluation_shader options.isa_disassembly_output_files.tessellation_evaluation_shader st
      andStageCheck env (.isa .vertex) options.pipeline_shaders.vertex_shader options.isa_disassembly_output_files.vertex_shader st
    else st
  let st :=
    if options.is_il_disassembly_required then
      let st := andStageCheck env (.il .compute) options.pipeline_shaders.compute_shader options.il_disassembly_output_files.compute_shader st
      let st := andStageCheck env (.il .fragment) options.pipeline_shaders.fragment_shader options.il_disassembly_output_files.fragment_shader st
      let st := andStageCheck env (.il .geometry) options.pipeline_shaders.geometry_shader options.il_disassembly_output_files.geometry_shader st
      let st := andStageCheck env (.il .tessellation_control) options.pipeline_shaders.tessellation_control_shader options.il_disassembly_output_files.tessellation_control_shader st
      let st := andStageCheck env (.il .tessellation_evaluation) options.pipeline_shaders.tessellation_evaluation_shader options.il_disassembly_output_files.tessellation_evaluation_shader st
      andStageCheck env (.il .vertex) options.pipeline_shaders.vertex_shader options.il_disassembly_output_files.vertex_shader st
    else st
  let st :=
    if st.1 && options.is_amd_isa_binaries_required then
      let r := IsFilePresent env .binary options.program_binary_filename.asASCIICharArray st.2
      (st.1 && r.1, r.2)
    else st
  let st :=
    if st.1 && options.is_stats_required then
      let st := andStageCheck env (.stats .compute) options.pipeline_shaders.compute_shader options.stats_output_files.compute_shader st
      let st := andStageCheck env (.stats .fragment) options.pipeline_shaders.fragment_shader options.stats_output_files.fragment_shader st
      let st := andStageCheck env (.stats .geometry) options.pipeline_shaders.geometry_shader options.stats_output_files.geometry_shader st
      let st := andStageCheck env (.stats .tessellation_control) options.pipeline_shaders.tessellation_control_shader options.stats_output_files.tessellation_control_shader st
      let st := andStageCheck env (.stats .tessellation_evaluation) options.pipeline_shaders.tessellation_evaluation_shader options.stats_output_files.tessellation_evaluation_shader st
      andStageCheck env (.stats .vertex) options.pipeline_shaders.vertex_shader options.stats_output_files.vertex_shader st
    else st
  st

/-- The delimiter `VC_CMD_DELIMITER`. -/
def VC_CMD_DELIMITER : Char := ';'

/-- The statement `cmd << field << VC_CMD_DELIMITER;`. -/
def putField (cmd : String) (field : String) : String := (cmd ++ field).push VC_CMD_DELIMITER

/-- The contents of the stream `cmd` that `Compile` builds for `gl_options`. -/
def CompileCmd (vcPath : String) (gl_options : OpenglOptions) : String :=
  -- ISA.
  let cmd := putField (vcPath ++ " \"") gl_options.isa_disassembly_output_files.vertex_shader.asASCIICharArray
  let cmd := putField cmd gl_options.isa_disassembly_output_files.tessellation_control_shader.asASCIICharArray
  let cmd := putField cmd gl_options.isa_disassembly_output_files.tessellation_evaluation_shader.asASCIICharArray
  let cmd := putField cmd gl_options.isa_disassembly_output_files.geometry_shader.asASCIICharArray
  let cmd := putField cmd gl_options.isa_disassembly_output_files.fragment_shader.asASCIICharArray
  let cmd := putField cmd gl_options.isa_disassembly_output_files.compute_shader.asASCIICharArray
  -- Program binary.
  let cmd := putField cmd gl_options.program_binary_filename.asASCIICharArray
  -- Statistics.
  let cmd := putField cmd gl_options.stats_output_files.vertex_shader.asASCIICharArray
  let cmd := putField cmd gl_options.stats_output_files.tessellation_control_shader.asASCIICharArray
  let cmd := putField cmd gl_options.stats_output_files.tessellation_evaluation_shader.asASCIICharArray
  let cmd := putField cmd gl_options.stats_output_files.geometry_shader.asASCIICharArray
  let cmd := putField cmd gl_options.stats_output_files.fragment_shader.asASCIICharArray
  let cmd := putField cmd gl_options.stats_output_files.compute_shader.asASCIICharArray
  -- Target device info.
  let cmd := putField (putField cmd (toString gl_options.chip_family)) (toString gl_options.chip_revision)
  -- Input shaders.
  let cmd := putField cmd gl_options.pipeline_shaders.vertex_shader.asASCIICharArray
  let cmd := putField cmd gl_options.pipeline_shaders.tessellation_control_shader.asASCIICharArray
  let cmd := putField cmd gl_options.pipeline_shaders.tessellation_evaluation_shader.asASCIICharArray
  let cmd := putField cmd gl_options.pipeline_shaders.geometry_shader.asASCIICharArray
  let cmd := putField cmd gl_options.pipeline_shaders.fragment_shader.asASCIICharArray
  let cmd := putField cmd gl_options.pipeline_shaders.compute_shader.asASCIICharArray
  -- An additional delimiter for the version slot.
  let cmd := cmd.push VC_CMD_DELIMITER
  -- IL disassembly output.
  let cmd := putField cmd gl_options.il_disassembly_output_files.vertex_shader.asASCIICharArray
  let cmd := putField cmd gl_options.il_disassembly_output_files.tessellation_control_shader.asASCIICharArray
  let cmd := putField cmd gl_options.il_disassembly_output_files.tessellation_evaluation_shader.asASCIICharArray
  let cmd := putField cmd gl_options.il_disassembly_output_files.geometry_shader.asASCIICharArray
  let cmd := putField cmd gl_options.il_disassembly_output_files.fragment_shader.asASCIICharArray
  let cmd := putField cmd gl_options.il_disassembly_output_files.compute_shader.asASCIICharArray
  cmd ++ "\""

/-- The wait intervals `kVcWaitInternal1` and `kVcWaitInternal2`, in milliseconds. -/
def kVcWaitInternal1 : Nat := 2000

/-- See `kVcWaitInternal1`. -/
def kVcWaitInternal2 : Nat := 4000

/-- The token `kVcErrorToken`. -/
def kVcErrorToken : gtString := gtString.L "error:"

/-- What `Compile` hands back: the returned status, the contents of the
caller's buffer `virtual_context_output`, and the world after the call. -/
structure CompileResult where
  status : beStatus
  virtual_context_output : gtString
  world : World
  deriving DecidableEq, Repr

/-- The method `BeProgramBuilderOpengl::Compile` (assertions are no-ops). -/
def Compile (env : Env) (gl_options : OpenglOptions) (cancel_signal : Bool)
    (should_print_cmd : Bool) (virtual_context_output : gtString) (w : World) : CompileResult :=
  let ret := beStatus.kBeStatusSuccess
  -- Clear the output buffer if needed.
  let virtual_context_output :=
    if !virtual_context_output.isEmpty then virtual_context_output.makeEmpty
    else virtual_context_output
  -- Get VC's path.
  let vcPath := GetVirtualContextPath env.target
  if env.deviceInfoInstance then
    let cmd := CompileCmd vcPath gl_options
    -- Build the GL program.
    let is_compiler_output_relevant := false
    let w := PrintCmdLine cmd should_print_cmd w
    -- Make 3 attempts with increasing intervals.
    let a := osExecAndGrabOutput env cmd cancel_signal w
    let a :=
      if !a.1.launch_succeeded || a.1.captured_output.isEmpty then
        -- First attempt failed, wait and make a second attempt.
        let w := osSleep kVcWaitInternal1 a.2
        let a := osExecAndGrabOutput env cmd cancel_signal w
        -- Second attempt failed, wait and make the last attempt.
        if !a.1.launch_succeeded || a.1.captured_output.isEmpty then
          let w := osSleep kVcWaitInternal2 a.2
          osExecAndGrabOutput env cmd cancel_signal w
        else a
      else a
    let is_launch_success := a.1.launch_succeeded
    let virtual_context_output := a.1.captured_output
    let w := a.2
    let r : beStatus × Bool × World :=
      if is_launch_success then
        let vc_output_lower_case := virtual_context_output.toLowerCase
        if vc_output_lower_case.find kVcErrorToken != -1 then
          (beStatus.kBeStatusOpenglBuildError, true, w)
        else
          let v := VerifyVirtualContextOutput env gl_options w
          if !v.1 then (beStatus.kBeStatusFailedOutputVerification, is_compiler_output_relevant, v.2)
          else (ret, is_compiler_output_relevant, v.2)
      else
        (beStatus.kBeStatusOpenglVirtualContextLaunchFailed, is_compiler_output_relevant, w)
    -- Clear the output if irrelevant.
    let virtual_context_output :=
      if !r.2.1 then virtual_context_output.makeEmpty else virtual_context_output
    ⟨r.1, virtual_context_output, r.2.2⟩
  else
    ⟨ret, virtual_context_output, w⟩

/-- The command that `GetOpenGLVersion` builds in its stream `cmd`. -/
def GetOpenGLVersionCmd (vc_path : String) : String :=
  vc_path ++ " \";;;;;;;;;;;;;;;;;;;;;version;;;;;;;\""

/-- The method `BeProgramBuilderOpengl::GetOpenGLVersion`: its boolean result, the contents
of the caller's buffer `opengl_version` after the call, and the world after the call. -/
def GetOpenGLVersion (env : Env) (should_print_cmd : Bool) (_opengl_version : gtString)
    (w : World) : Bool × gtString × World :=
  -- Get VC's path.
  let vc_path := GetVirtualContextPath env.target
  -- Build the command for invoking Virtual Context.
  let cmd := GetOpenGLVersionCmd vc_path
  -- A flag for canceling the operation, we will not use it.
  let dummy_cancel_flag := false
  let w := PrintCmdLine cmd should_print_cmd w
  let a := osExecAndGrabOutput env cmd dummy_cancel_flag w
  let isLaunchSuccess := a.1.launch_succeeded
  (isLaunchSuccess, a.1.captured_output, a.2)

/-- The static `std::map<std::string, std::pair<size_t, size_t>>` of `GetDeviceGLInfo`:
a list of key/value entries with pairwise distinct keys. -/
abbrev DeviceMap := List (String × (Nat × Nat))

/-- The statement `m[key] = value;`: the value of an existing key is replaced, a new key
is inserted. -/
def DeviceMap.assign (m : DeviceMap) (key : String) (value : Nat × Nat) : DeviceMap :=
  if m.any (fun e => e.1 == key) then m.map (fun e => if e.1 == key then (key, value) else e)
  else m ++ [(key, value)]

/-- The call `m.find(key)`: the value stored under `key`, or `none` for `m.end()`. -/
def DeviceMap.find (m : DeviceMap) (key : String) : Option (Nat × Nat) := m.lookup key

/-- The assignments made by `GetDeviceGLInfo` when the static map is empty, in source order. -/
def kGlBackendAssignments : List (String × (Nat × Nat)) :=
  [("Bonaire", (120, 20)),
   ("Bristol Ridge", (130, 10)),
   ("Capeverde", (110, 40)),
   ("Carrizo", (130, 1)),
   ("Fiji", (130, 60)),
   ("Hainan", (110, 75)),
   ("Hawaii", (120, 40)),
   ("Iceland", (130, 19)),
   ("Kalindi", (120, 129)),
   ("Mullins", (120, 161)),
   ("Oland", (110, 60)),
   ("Pitcairn", (110, 20)),
   ("Spectre", (120, 1)),
   ("Spooky", (120, 65)),
   ("Stoney", (130, 97)),
   ("Tahiti", (110, 0)),
   ("Tonga", (130, 20)),
   ("Baffin", (130, 91)),
   ("Ellesmere", (130, 89)),
   ("gfx804", (130, 100)),
   ("gfx900", (141, 1)),
   ("gfx902", (141, 27)),
   ("gfx906", (141, 40)),
   ("gfx909", (141, 20)),
   ("gfx90c", (141, 20)),
   ("gfx1010", (143, 1)),
   ("gfx1011", (143, 10)),
   ("gfx1012", (143, 20)),
   ("gfx1030", (143, 40)),
   ("gfx1031", (143, 50)),
   ("gfx1032", (143, 60)),
   ("gfx1034", (143, 70))]

/-- The method `BeProgramBuilderOpengl::GetDeviceGLInfo`. The static map
`gl_backend_values` is threaded through the call: the result is the returned boolean, the
two output parameters after the call, and the static map after the call. -/
def GetDeviceGLInfo (gl_backend_values : DeviceMap) (device_name : String)
    (device_family_id device_revision : Nat) : Bool × Nat × Nat × DeviceMap :=
  let ret := false
  let gl_backend_values :=
    if gl_backend_values.isEmpty then
      -- Fill in the values if that's the first time.
      kGlBackendAssignments.foldl (fun m e => m.assign e.1 e.2) gl_backend_values
    else gl_backend_values
  -- Fetch the relevant value.
  match gl_backend_values.find device_name with
  | some device_iter => (true, device_iter.1, device_iter.2, gl_backend_values)
  | none => (ret, device_family_id, device_revision, gl_backend_values)

/-- The set `kOpenglDisabledDevices`. -/
def kOpenglDisabledDevices : List String := []

/-- The loop `for (device : disabled) device_list.erase(device);` on a set of names. -/
def eraseDevices (disabled : List String) (device_list : List String) : List String :=
  disabled.foldl (fun l device => l.filter (fun d => d != device)) device_list

/-- The method `BeProgramBuilderOpengl::GetSupportedDevices`. The host enumeration
`BeUtils::GetAllGraphicsCards` is a parameter: it maps the caller's set to its boolean
result and the set it leaves in `device_list`. -/
def GetSupportedDevices (GetAllGraphicsCards : List String → Bool × List String)
    (device_list : List String) : Bool × List String :=
  let r := GetAllGraphicsCards device_list
  let ret := r.1
  let device_list := r.2
  -- Remove unsupported devices.
  let device_list := if ret then eraseDevices kOpenglDisabledDevices device_list else device_list
  (ret, device_list)

/-- The method `BeProgramBuilderOpengl::GetDisabledDevices`. -/
def GetDisabledDevices : List String := kOpenglDisabledDevices

/-! ## Vocabulary of the statements -/

/-- The string a pipeline record holds for a stage. -/
def BeProgramPipeline.get (p : BeProgramPipeline) : Stage → gtString
  | .vertex => p.vertex_shader
  | .tessellation_control => p.tessellation_control_shader
  | .tessellation_evaluation => p.tessellation_evaluation_shader
  | .geometry => p.geometry_shader
  | .fragment => p.fragment_shader
  | .compute => p.compute_shader

/-- The text `t` contains the substring "error:" in some letter case: it splits
into three pieces whose middle one lower-cases to "error:". -/
def ContainsErrorAnyCase (t : gtString) : Prop :=
  ∃ pre mid post : List Char, t.chars = pre ++ mid ++ post ∧ mid.map Char.toLower = "error:".data

/-- The effects performed between the world `w` and the later world `w1`. -/
def performed (w w1 : World) : List Effect := w1.trace.drop w.trace.length

/-- The outcomes of the launches in a trace, in order. -/
def launchOutcomes (t : List Effect) : List ExecOutcome :=
  t.filterMap fun e => match e with
    | Effect.launch _ _ o => some o
    | _ => none

/-- The outcome of the last launch in a trace, if there is one. -/
def finalAttempt (t : List Effect) : Option ExecOutcome := (launchOutcomes t).getLast?

/-- The stages in the order in which `VerifyVirtualContextOutput` visits them. -/
def verifyOrder : List Stage :=
  [.compute, .fragment, .geometry, .tessellation_control, .tessellation_evaluation, .vertex]

/-- Every stage with a non-empty input path has its output file of one category present. -/
def groupOk (env : Env) (inputs outputs : BeProgramPipeline) : Bool :=
  verifyOrder.all fun s =>
    (inputs.get s).isEmpty || env.IsFilePresent (outputs.get s).asASCIICharArray

/-- The probes of one category: one per stage with a non-empty input path. -/
def groupProbes (mk : Stage → OutputSlot) (inputs outputs : BeProgramPipeline) : List Effect :=
  verifyOrder.filterMap fun s =>
    if (inputs.get s).isEmpty then none
    else some (Effect.probe (mk s) (outputs.get s).asASCIICharArray)

/-- Closed form of the value returned by `VerifyVirtualContextOutput`. -/
def verifyValue (env : Env) (o : OpenglOptions) : Bool :=
  (!o.is_amd_isa_disassembly_required || groupOk env o.pipeline_shaders o.isa_disassembly_output_files)
  && (!o.is_il_disassembly_required || groupOk env o.pipeline_shaders o.il_disassembly_output_files)
  && (!o.is_amd_isa_binaries_required || env.IsFilePresent o.program_binary_filename.asASCIICharArray)
  && (!o.is_stats_required || groupOk env o.pipeline_shaders o.stats_output_files)

/-- Closed form of the probes made by `VerifyVirtualContextOutput`, in order. -/
def verifyProbes (env : Env) (o : OpenglOptions) : List Effect :=
  let isaOk := !o.is_amd_isa_disassembly_required || groupOk env o.pipeline_shaders o.isa_disassembly_output_files
  let ilOk := !o.is_il_disassembly_required || groupOk env o.pipeline_shaders o.il_disassembly_output_files
  let binOk := !o.is_amd_isa_binaries_required || env.IsFilePresent o.program_binary_filename.asASCIICharArray
  (if o.is_amd_isa_disassembly_required then
      groupProbes OutputSlot.isa o.pipeline_shaders o.isa_disassembly_output_files else [])
  ++ (if o.is_il_disassembly_required then
      groupProbes OutputSlot.il o.pipeline_shaders o.il_disassembly_output_files else [])
  ++ (if isaOk && ilOk && o.is_amd_isa_binaries_required then
      [Effect.probe OutputSlot.binary o.program_binary_filename.asASCIICharArray] else [])
  ++ (if isaOk && ilOk && binOk && o.is_stats_required then
      groupProbes OutputSlot.stats o.pipeline_shaders o.stats_output_files else [])

/-- An attempt is unsatisfactory when the launch failed or nothing was captured. -/
def unsatisfactory (o : ExecOutcome) : Bool := !o.launch_succeeded || o.captured_output.isEmpty

/-- The outcome of attempt number `k + 1` of a call of `Compile` started in world `w`. -/
def attemptOutcome (env : Env) (gl_options : OpenglOptions) (cancel_signal : Bool) (w : World)
    (k : Nat) : ExecOutcome :=
  env.osExecAndGrabOutput (w.launches + k)
    (CompileCmd (GetVirtualContextPath env.target) gl_options) cancel_signal

/-- The number of attempts prescribed by the retry policy for the outcomes `a 0`, `a 1`, `a 2`
of the first, second and third attempt. -/
def launchCount (a : Nat → ExecOutcome) : Nat :=
  if !unsatisfactory (a 0) then 1
  else if !unsatisfactory (a 1) then 2
  else 3

/-- The launches in a trace: command, cancel flag and outcome of each, in order. -/
def launchEffects (t : List Effect) : List (String × Bool × ExecOutcome) :=
  t.filterMap fun e => match e with
    | Effect.launch c k o => some (c, k, o)
    | _ => none

/-- A launch or a sleep, without the data of the launch. -/
inductive Timing
  | launch
  | sleep (ms : Nat)
  deriving DecidableEq, Repr

/-- The launches and sleeps of a trace, in order. -/
def timing (t : List Effect) : List Timing :=
  t.filterMap fun e => match e with
    | Effect.launch _ _ _ => some Timing.launch
    | Effect.sleep ms => some (Timing.sleep ms)
    | _ => none

/-- The probes of a trace: slot and path of each, in order. -/
def probes (t : List Effect) : List (OutputSlot × String) :=
  t.filterMap fun e => match e with
    | Effect.probe slot path => some (slot, path)
    | _ => none

/-- The launches and sleeps made by the retry policy, in closed form. -/
def retryEffects (cmd : String) (cancel_signal : Bool) (a : Nat → ExecOutcome) : List Effect :=
  if !unsatisfactory (a 0) then [Effect.launch cmd cancel_signal (a 0)]
  else if !unsatisfactory (a 1) then
    [Effect.launch cmd cancel_signal (a 0), Effect.sleep 2000, Effect.launch cmd cancel_signal (a 1)]
  else
    [Effect.launch cmd cancel_signal (a 0), Effect.sleep 2000, Effect.launch cmd cancel_signal (a 1),
     Effect.sleep 4000, Effect.launch cmd cancel_signal (a 2)]

/-- The outcome of the last attempt made by the retry policy, in closed form. -/
def finalOutcome (a : Nat → ExecOutcome) : ExecOutcome := a (launchCount a - 1)

/-- The retry block of `Compile` (the three calls of `osExecAndGrabOutput` and the two
sleeps) in isolation, for an arbitrary command. -/
def retryBlock (env : Env) (cmd : String) (cancel_signal : Bool) (w : World) : ExecOutcome × World :=
  let a := osExecAndGrabOutput env cmd cancel_signal w
  if !a.1.launch_succeeded || a.1.captured_output.isEmpty then
    let w := osSleep kVcWaitInternal1 a.2
    let a := osExecAndGrabOutput env cmd cancel_signal w
    if !a.1.launch_succeeded || a.1.captured_output.isEmpty then
      let w := osSleep kVcWaitInternal2 a.2
      osExecAndGrabOutput env cmd cancel_signal w
    else a
  else a

/-- The 28 positional fields of the command, in the order of section 4.1 of the
specification: six ISA output paths, the binary output path, six statistics output paths,
the decimal chip family and revision, six input paths, the empty version slot, six IL
output paths; every group in the order vertex, tessellation control, tessellation
evaluation, geometry, fragment, compute. -/
def specFields (gl : OpenglOptions) : List String :=
  [gl.isa_disassembly_output_files.vertex_shader.asASCIICharArray,
   gl.isa_disassembly_output_files.tessellation_control_shader.asASCIICharArray,
   gl.isa_disassembly_output_files.tessellation_evaluation_shader.asASCIICharArray,
   gl.isa_disassembly_output_files.geometry_shader.asASCIICharArray,
   gl.isa_disassembly_output_files.fragment_shader.asASCIICharArray,
   gl.isa_disassembly_output_files.compute_shader.asASCIICharArray,
   gl.program_binary_filename.asASCIICharArray,
   gl.stats_output_files.vertex_shader.asASCIICharArray,
   gl.stats_output_files.tessellation_control_shader.asASCIICharArray,
   gl.stats_output_files.tessellation_evaluation_shader.asASCIICharArray,
   gl.stats_output_files.geometry_shader.asASCIICharArray,
   gl.stats_output_files.fragment_shader.asASCIICharArray,
   gl.stats_output_files.compute_shader.asASCIICharArray,
   Nat.repr gl.chip_family,
   Nat.repr gl.chip_revision,
   gl.pipeline_shaders.vertex_shader.asASCIICharArray,
   gl.pipeline_shaders.tessellation_control_shader.asASCIICharArray,
   gl.pipeline_shaders.tessellation_evaluation_shader.asASCIICharArray,
   gl.pipeline_shaders.geometry_shader.asASCIICharArray,
   gl.pipeline_shaders.fragment_shader.asASCIICharArray,
   gl.pipeline_shaders.compute_shader.asASCIICharArray,
   "",
   gl.il_disassembly_output_files.vertex_shader.asASCIICharArray,
   gl.il_disassembly_output_files.tessellation_control_shader.asASCIICharArray,
   gl.il_disassembly_output_files.tessellation_evaluation_shader.asASCIICharArray,
   gl.il_disassembly_output_files.geometry_shader.asASCIICharArray,
   gl.il_disassembly_output_files.fragment_shader.asASCIICharArray,
   gl.il_disassembly_output_files.compute_shader.asASCIICharArray]

/-- The fields, each immediately followed by a semicolon. -/
def joinTerminated : List String → String
  | [] => ""
  | f :: fs => f ++ ";" ++ joinTerminated fs

/-- The 25 path strings of a request. -/
def allPaths (gl : OpenglOptions) : List gtString :=
  [gl.isa_disassembly_output_files.vertex_shader,
   gl.isa_disassembly_output_files.tessellation_control_shader,
   gl.isa_disassembly_output_files.tessellation_evaluation_shader,
   gl.isa_disassembly_output_files.geometry_shader,
   gl.isa_disassembly_output_files.fragment_shader,
   gl.isa_disassembly_output_files.compute_shader,
   gl.program_binary_filename,
   gl.stats_output_files.vertex_shader,
   gl.stats_output_files.tessellation_control_shader,
   gl.stats_output_files.tessellation_evaluation_shader,
   gl.stats_output_files.geometry_shader,
   gl.stats_output_files.fragment_shader,
   gl.stats_output_files.compute_shader,
   gl.pipeline_shaders.vertex_shader,
   gl.pipeline_shaders.tessellation_control_shader,
   gl.pipeline_shaders.tessellation_evaluation_shader,
   gl.pipeline_shaders.geometry_shader,
   gl.pipeline_shaders.fragment_shader,
   gl.pipeline_shaders.compute_shader,
   gl.il_disassembly_output_files.vertex_shader,
   gl.il_disassembly_output_files.tessellation_control_shader,
   gl.il_disassembly_output_files.tessellation_evaluation_shader,
   gl.il_disassembly_output_files.geometry_shader,
   gl.il_disassembly_output_files.fragment_shader,
   gl.il_disassembly_output_files.compute_shader]

/-- Splitting a text on a delimiter: the pieces between consecutive delimiters, one more
than there are delimiters. -/
def splitOnChar (d : Char) : List Char → List (List Char)
  | [] => [[]]
  | c :: cs =>
    if c = d then [] :: splitOnChar d cs
    else
      match splitOnChar d cs with
      | [] => [[c]]
      | piece :: pieces => (c :: piece) :: pieces

/-- The quoted argument of a command: the text after the first double quote and before the
last character (the closing double quote). -/
def quotedArgument (cmd : String) : List Char :=
  ((cmd.data.dropWhile fun c => c != '"').drop 1).dropLast

/-- The text of a command before its first double quote. -/
def beforeQuote (cmd : String) : List Char := cmd.data.takeWhile fun c => c != '"'

/-! ## Concrete requests and environments -/

/-- A pipeline record with no path set. -/
def emptyPipeline : BeProgramPipeline :=
  ⟨gtString.L "", gtString.L "", gtString.L "", gtString.L "", gtString.L "", gtString.L ""⟩

/-- A request with only the vertex shader set and only ISA disassembly required. -/
def vertexOnlyOptions : OpenglOptions :=
  { pipeline_shaders := { emptyPipeline with vertex_shader := gtString.L "shader.vert" }
    isa_disassembly_output_files := { emptyPipeline with vertex_shader := gtString.L "vert.isa" }
    il_disassembly_output_files := emptyPipeline
    stats_output_files := emptyPipeline
    program_binary_filename := gtString.L ""
    chip_family := 110
    chip_revision := 0
    is_amd_isa_binaries_required := false
    is_amd_isa_disassembly_required := true
    is_il_disassembly_required := false
    is_stats_required := false }

/-- An environment on Linux with a non-null device-info singleton, in which the
successive launches have the outcomes listed in `script` (a failed launch with no
output once the script is exhausted) and exactly the files in `present` exist. -/
def scriptedEnv (script : List ExecOutcome) (present : List String) : Env :=
  { target := BuildTarget.linux
    deviceInfoInstance := true
    osExecAndGrabOutput := fun n _ _ => script.getD n ⟨false, ⟨[]⟩⟩
    IsFilePresent := fun path => present.contains path }

/-- A request with every stage set and no output required, whose output paths name
files that do not exist. -/
def nothingRequiredOptions : OpenglOptions :=
  { pipeline_shaders :=
      ⟨gtString.L "a.vert", gtString.L "a.tesc", gtString.L "a.tese", gtString.L "a.geom",
        gtString.L "a.frag", gtString.L "a.comp"⟩
    isa_disassembly_output_files :=
      ⟨gtString.L "no/vert.isa", gtString.L "no/tesc.isa", gtString.L "no/tese.isa",
        gtString.L "no/geom.isa", gtString.L "no/frag.isa", gtString.L "no/comp.isa"⟩
    il_disassembly_output_files := emptyPipeline
    stats_output_files := emptyPipeline
    program_binary_filename := gtString.L "no/program.bin"
    chip_family := 143
    chip_revision := 40
    is_amd_isa_binaries_required := false
    is_amd_isa_disassembly_required := false
    is_il_disassembly_required := false
    is_stats_required := false }

/-- The request `vertexOnlyOptions` with output paths written into the slots of the
fragment and compute stages, whose input paths are empty. -/
def vertexOnlyGarbageOptions : OpenglOptions :=
  { vertexOnlyOptions with
    isa_disassembly_output_files :=
      { emptyPipeline with
        vertex_shader := gtString.L "vert.isa"
        fragment_shader := gtString.L "/dev/null/garbage"
        compute_shader := gtString.L "???" }
    stats_output_files := { emptyPipeline with geometry_shader := gtString.L "garbage.stats" } }

/-- A request whose pipeline consists of a compute shader only, with every output
category required. -/
def computeOnlyOptions : OpenglOptions :=
  { pipeline_shaders := { emptyPipeline with compute_shader := gtString.L "k.comp" }
    isa_disassembly_output_files := { emptyPipeline with compute_shader := gtString.L "k.isa" }
    il_disassembly_output_files := { emptyPipeline with compute_shader := gtString.L "k.il" }
    stats_output_files := { emptyPipeline with compute_shader := gtString.L "k.csv" }
    program_binary_filename := gtString.L "k.bin"
    chip_family := 143
    chip_revision := 40
    is_amd_isa_binaries_required := true
    is_amd_isa_disassembly_required := true
    is_il_disassembly_required := true
    is_stats_required := true }

/-- A request with all six stages set, with every output category required. -/
def fullPipelineOptions : OpenglOptions :=
  { pipeline_shaders :=
      ⟨gtString.L "a.vert", gtString.L "a.tesc", gtString.L "a.tese", gtString.L "a.geom",
        gtString.L "a.frag", gtString.L "a.comp"⟩
    isa_disassembly_output_files :=
      ⟨gtString.L "vert.isa", gtString.L "tesc.isa", gtString.L "tese.isa", gtString.L "geom.isa",
        gtString.L "frag.isa", gtString.L "comp.isa"⟩
    il_disassembly_output_files :=
      ⟨gtString.L "vert.il", gtString.L "tesc.il", gtString.L "tese.il", gtString.L "geom.il",
        gtString.L "frag.il", gtString.L "comp.il"⟩
    stats_output_files :=
      ⟨gtString.L "vert.csv", gtString.L "tesc.csv", gtString.L "tese.csv", gtString.L "geom.csv",
        gtString.L "frag.csv", gtString.L "comp.csv"⟩
    program_binary_filename := gtString.L "program.bin"
    chip_family := 110
    chip_revision := 0
    is_amd_isa_binaries_required := true
    is_amd_isa_disassembly_required := true
    is_il_disassembly_required := true
    is_stats_required := true }

/-- An environment like `scriptedEnv` in which the device-info singleton is null. -/
def nullSingletonEnv (script : List ExecOutcome) (present : List String) : Env :=
  { scriptedEnv script present with deviceInfoInstance := false }

/-! ## Auxiliary lemmas -/

theorem findFrom_ne_neg_one_iff (needle : List Char) (hay : List Char) (i : Nat) :
    gtString.findFrom needle hay i ≠ -1 ↔ needle <:+: hay := by
  induction hay generalizing i with
  | nil =>
    cases needle with
    | nil => simp [gtString.findFrom]
    | cons a as => simp [gtString.findFrom]
  | cons c cs ih =>
    rw [gtString.findFrom, List.infix_cons_iff]
    by_cases h : needle.isPrefixOf (c :: cs) = true
    · simp only [h, if_true]
      constructor
      · intro _; exact Or.inl (List.isPrefixOf_iff_prefix.mp h)
      · intro _; omega
    · simp only [h, Bool.false_eq_true, if_false]
      rw [ih]
      constructor
      · intro h2; exact Or.inr h2
      · rintro (h2 | h2)
        · exact absurd (List.isPrefixOf_iff_prefix.mpr h2) h
        · exact h2

theorem infix_map_iff (f : Char → Char) (needle t : List Char) :
    needle <:+: t.map f ↔
      ∃ pre mid post : List Char, t = pre ++ mid ++ post ∧ mid.map f = needle := by
  constructor
  · rintro ⟨s, u, h⟩
    obtain ⟨l₁, post, rfl, h1, h2⟩ := List.map_eq_append_iff.mp h.symm
    obtain ⟨pre, mid, rfl, h3, h4⟩ := List.map_eq_append_iff.mp h1
    exact ⟨pre, mid, post, rfl, h4⟩
  · rintro ⟨pre, mid, post, rfl, rfl⟩
    exact ⟨pre.map f, post.map f, by simp⟩

/-- The test made by `Compile` on the lower-cased copy finds the token exactly
when the text contains "error:" in some letter case. -/
theorem find_error_token_iff (t : gtString) :
    (t.toLowerCase.find kVcErrorToken != -1) = true ↔ ContainsErrorAnyCase t := by
  unfold ContainsErrorAnyCase
  rw [← infix_map_iff, bne_iff_ne]
  exact findFrom_ne_neg_one_iff _ _ 0

theorem andStageCheck_eq (env : Env) (slot : OutputSlot) (input output : gtString)
    (st : Bool × World) :
    andStageCheck env slot input output st =
      (st.1 && (input.isEmpty || env.IsFilePresent output.asASCIICharArray),
       ⟨st.2.trace ++ (if input.isEmpty then [] else [Effect.probe slot output.asASCIICharArray]),
        st.2.launches⟩) := by
  unfold andStageCheck IsFilePresent
  cases h : input.isEmpty <;> simp

/-- Six consecutive stage checks of one output category, in closed form. -/
theorem stageBlock_eq (env : Env) (mk : Stage → OutputSlot) (i o : BeProgramPipeline)
    (st : Bool × World) :
    andStageCheck env (mk .vertex) i.vertex_shader o.vertex_shader
      (andStageCheck env (mk .tessellation_evaluation) i.tessellation_evaluation_shader
        o.tessellation_evaluation_shader
        (andStageCheck env (mk .tessellation_control) i.tessellation_control_shader
          o.tessellation_control_shader
          (andStageCheck env (mk .geometry) i.geometry_shader o.geometry_shader
            (andStageCheck env (mk .fragment) i.fragment_shader o.fragment_shader
              (andStageCheck env (mk .compute) i.compute_shader o.compute_shader st))))) =
      (st.1 && groupOk env i o, ⟨st.2.trace ++ groupProbes mk i o, st.2.launches⟩) := by
  simp only [andStageCheck_eq, groupOk, groupProbes, verifyOrder, BeProgramPipeline.get,
    List.all_cons, List.all_nil, Bool.and_true, List.append_assoc, Bool.and_assoc]
  refine Prod.ext rfl ?_
  simp only [World.mk.injEq, and_true, List.append_cancel_left_eq]
  cases h1 : i.compute_shader.isEmpty <;> cases h2 : i.fragment_shader.isEmpty <;>
    cases h3 : i.geometry_shader.isEmpty <;> cases h4 : i.tessellation_control_shader.isEmpty <;>
    cases h5 : i.tessellation_evaluation_shader.isEmpty <;> cases h6 : i.vertex_shader.isEmpty <;>
    simp [List.filterMap_cons, h1, h2, h3, h4, h5, h6]

/-- The function `VerifyVirtualContextOutput` in closed form. -/
theorem VerifyVirtualContextOutput_eq (env : Env) (o : OpenglOptions) (w : World) :
    VerifyVirtualContextOutput env o w =
      (verifyValue env o, ⟨w.trace ++ verifyProbes env o, w.launches⟩) := by
  unfold VerifyVirtualContextOutput
  simp only [stageBlock_eq, IsFilePresent, verifyValue, verifyProbes]
  cases o.is_amd_isa_disassembly_required <;> cases o.is_il_disassembly_required <;>
    cases o.is_amd_isa_binaries_required <;> cases o.is_stats_required <;>
    cases groupOk env o.pipeline_shaders o.isa_disassembly_output_files <;>
    cases groupOk env o.pipeline_shaders o.il_disassembly_output_files <;>
    cases env.IsFilePresent o.program_binary_filename.asASCIICharArray <;>
    simp

/-- The retry block in closed form. -/
theorem retryBlock_eq (env : Env) (cmd : String) (cancel : Bool) (w : World) :
    retryBlock env cmd cancel w =
      (finalOutcome fun k => env.osExecAndGrabOutput (w.launches + k) cmd cancel,
       ⟨w.trace ++ retryEffects cmd cancel fun k => env.osExecAndGrabOutput (w.launches + k) cmd cancel,
        w.launches + launchCount fun k => env.osExecAndGrabOutput (w.launches + k) cmd cancel⟩) := by
  simp only [retryBlock, osExecAndGrabOutput, osSleep, finalOutcome, launchCount, retryEffects,
    kVcWaitInternal1, kVcWaitInternal2, unsatisfactory, Nat.add_zero, Nat.add_assoc, Nat.reduceAdd]
  by_cases h1 : (!(env.osExecAndGrabOutput w.launches cmd cancel).launch_succeeded ||
      (env.osExecAndGrabOutput w.launches cmd cancel).captured_output.isEmpty) = true <;>
    by_cases h2 : (!(env.osExecAndGrabOutput (w.launches + 1) cmd cancel).launch_succeeded ||
      (env.osExecAndGrabOutput (w.launches + 1) cmd cancel).captured_output.isEmpty) = true <;>
    simp [h1, h2]

/-- The method `Compile` in closed form, when the device-info singleton is non-null. -/
theorem Compile_eq (env : Env) (gl : OpenglOptions) (cancel sp : Bool) (buf : gtString)
    (w : World) (hdev : env.deviceInfoInstance = true) :
    Compile env gl cancel sp buf w =
      if (finalOutcome (attemptOutcome env gl cancel w)).launch_succeeded then
        if (finalOutcome (attemptOutcome env gl cancel w)).captured_output.toLowerCase.find
            kVcErrorToken != -1 then
          ⟨beStatus.kBeStatusOpenglBuildError,
            (finalOutcome (attemptOutcome env gl cancel w)).captured_output,
            ⟨w.trace ++ Effect.print (CompileCmd (GetVirtualContextPath env.target) gl) sp ::
                retryEffects (CompileCmd (GetVirtualContextPath env.target) gl) cancel
                  (attemptOutcome env gl cancel w),
              w.launches + launchCount (attemptOutcome env gl cancel w)⟩⟩
        else
          ⟨if verifyValue env gl then beStatus.kBeStatusSuccess
              else beStatus.kBeStatusFailedOutputVerification,
            ⟨[]⟩,
            ⟨w.trace ++ Effect.print (CompileCmd (GetVirtualContextPath env.target) gl) sp ::
                (retryEffects (CompileCmd (GetVirtualContextPath env.target) gl) cancel
                  (attemptOutcome env gl cancel w) ++ verifyProbes env gl),
              w.launches + launchCount (attemptOutcome env gl cancel w)⟩⟩
      else
        ⟨beStatus.kBeStatusOpenglVirtualContextLaunchFailed, ⟨[]⟩,
          ⟨w.trace ++ Effect.print (CompileCmd (GetVirtualContextPath env.target) gl) sp ::
              retryEffects (CompileCmd (GetVirtualContextPath env.target) gl) cancel
                (attemptOutcome env gl cancel w),
            w.launches + launchCount (attemptOutcome env gl cancel w)⟩⟩ := by
  have hr := retryBlock_eq env (CompileCmd (GetVirtualContextPath env.target) gl) cancel
    (PrintCmdLine (CompileCmd (GetVirtualContextPath env.target) gl) sp w)
  unfold retryBlock at hr
  simp only [] at hr
  unfold Compile
  simp only [hdev, if_true, hr]
  clear hr
  have ha : attemptOutcome env gl cancel w = fun k => env.osExecAndGrabOutput (w.launches + k)
      (CompileCmd (GetVirtualContextPath env.target) gl) cancel := rfl
  rw [ha]
  simp only [VerifyVirtualContextOutput_eq, PrintCmdLine, gtString.makeEmpty]
  generalize (finalOutcome fun k => env.osExecAndGrabOutput (w.launches + k)
      (CompileCmd (GetVirtualContextPath env.target) gl) cancel) = f
  cases hl : f.launch_succeeded <;>
    cases hf : (f.captured_output.toLowerCase.find kVcErrorToken != -1) <;>
    cases hv : verifyValue env gl <;> simp

theorem groupOk_iff (env : Env) (i o : BeProgramPipeline) :
    groupOk env i o = true ↔
      ∀ s : Stage, (i.get s).isEmpty = false →
        env.IsFilePresent (o.get s).asASCIICharArray = true := by
  simp only [groupOk, verifyOrder, List.all_cons, List.all_nil, Bool.and_true, Bool.and_eq_true,
    Bool.or_eq_true]
  constructor
  · rintro ⟨h1, h2, h3, h4, h5, h6⟩ s hs
    cases s
    · exact h6.resolve_left (by simp [hs])
    · exact h4.resolve_left (by simp [hs])
    · exact h5.resolve_left (by simp [hs])
    · exact h3.resolve_left (by simp [hs])
    · exact h2.resolve_left (by simp [hs])
    · exact h1.resolve_left (by simp [hs])
  · intro h
    have key : ∀ s : Stage, (i.get s).isEmpty = true ∨
        env.IsFilePresent (o.get s).asASCIICharArray = true := by
      intro s
      cases hs : (i.get s).isEmpty
      · exact Or.inr (h s hs)
      · exact Or.inl rfl
    exact ⟨key _, key _, key _, key _, key _, key _⟩

/-- The closed form of the verifier's value is the conjunction of the four category conditions. -/
theorem verifyValue_iff (env : Env) (o : OpenglOptions) :
    verifyValue env o = true ↔
      (o.is_amd_isa_disassembly_required = true → ∀ s : Stage,
          (o.pipeline_shaders.get s).isEmpty = false →
          env.IsFilePresent (o.isa_disassembly_output_files.get s).asASCIICharArray = true) ∧
      (o.is_il_disassembly_required = true → ∀ s : Stage,
          (o.pipeline_shaders.get s).isEmpty = false →
          env.IsFilePresent (o.il_disassembly_output_files.get s).asASCIICharArray = true) ∧
      (o.is_stats_required = true → ∀ s : Stage,
          (o.pipeline_shaders.get s).isEmpty = false →
          env.IsFilePresent (o.stats_output_files.get s).asASCIICharArray = true) ∧
      (o.is_amd_isa_binaries_required = true →
          env.IsFilePresent o.program_binary_filename.asASCIICharArray = true) := by
  simp only [verifyValue, Bool.and_eq_true, Bool.or_eq_true, Bool.not_eq_true', groupOk_iff]
  constructor
  · rintro ⟨⟨⟨h1, h2⟩, h3⟩, h4⟩
    refine ⟨fun h => h1.resolve_left (by simp [h]), fun h => h2.resolve_left (by simp [h]),
      fun h => h4.resolve_left (by simp [h]), fun h => h3.resolve_left (by simp [h])⟩
  · rintro ⟨h1, h2, h3, h4⟩
    have key : ∀ (b : Bool) (P : Prop), (b = true → P) → (b = false ∨ P) := by
      intro b P h
      cases b
      · exact Or.inl rfl
      · exact Or.inr (h rfl)
    exact ⟨⟨⟨key _ _ h1, key _ _ h2⟩, key _ _ h4⟩, key _ _ h3⟩

theorem mem_groupProbes (mk : Stage → OutputSlot) (i o : BeProgramPipeline) (e : Effect) :
    e ∈ groupProbes mk i o ↔
      ∃ s : Stage, (i.get s).isEmpty = false ∧ e = Effect.probe (mk s) (o.get s).asASCIICharArray := by
  simp only [groupProbes, List.mem_filterMap]
  constructor
  · rintro ⟨s, _, hs⟩
    cases h : (i.get s).isEmpty
    · simp only [h, Bool.false_eq_true, if_false, Option.some.injEq] at hs
      exact ⟨s, h, hs.symm⟩
    · simp [h] at hs
  · rintro ⟨s, h, rfl⟩
    refine ⟨s, ?_, by simp [h]⟩
    cases s <;> simp [verifyOrder]

/-- Every effect of the verifier is a probe made for a required category, and a probe
made for a stage belongs to a stage with a non-empty input path. -/
theorem mem_verifyProbes (env : Env) (o : OpenglOptions) (e : Effect)
    (h : e ∈ verifyProbes env o) :
    (o.is_amd_isa_disassembly_required = true ∧ ∃ s : Stage,
        (o.pipeline_shaders.get s).isEmpty = false ∧
        e = Effect.probe (.isa s) (o.isa_disassembly_output_files.get s).asASCIICharArray) ∨
    (o.is_il_disassembly_required = true ∧ ∃ s : Stage,
        (o.pipeline_shaders.get s).isEmpty = false ∧
        e = Effect.probe (.il s) (o.il_disassembly_output_files.get s).asASCIICharArray) ∨
    (o.is_amd_isa_binaries_required = true ∧
        e = Effect.probe .binary o.program_binary_filename.asASCIICharArray) ∨
    (o.is_stats_required = true ∧ ∃ s : Stage,
        (o.pipeline_shaders.get s).isEmpty = false ∧
        e = Effect.probe (.stats s) (o.stats_output_files.get s).asASCIICharArray) := by
  simp only [verifyProbes, List.mem_append] at h
  rcases h with ((h | h) | h) | h
  · split at h
    · rename_i hf; exact Or.inl ⟨hf, (mem_groupProbes _ _ _ _).mp h⟩
    · simp at h
  · split at h
    · rename_i hf; exact Or.inr (Or.inl ⟨hf, (mem_groupProbes _ _ _ _).mp h⟩)
    · simp at h
  · split at h
    · rename_i hf
      simp only [Bool.and_eq_true] at hf
      simp only [List.mem_singleton] at h
      exact Or.inr (Or.inr (Or.inl ⟨hf.2, h⟩))
    · simp at h
  · split at h
    · rename_i hf
      simp only [Bool.and_eq_true] at hf
      exact Or.inr (Or.inr (Or.inr ⟨hf.2, (mem_groupProbes _ _ _ _).mp h⟩))
    · simp at h

theorem verifyProbes_is_probe (env : Env) (o : OpenglOptions) (e : Effect)
    (h : e ∈ verifyProbes env o) : ∃ slot path, e = Effect.probe slot path := by
  rcases mem_verifyProbes env o e h with ⟨_, s, _, rfl⟩ | ⟨_, s, _, rfl⟩ | ⟨_, rfl⟩ | ⟨_, s, _, rfl⟩
  · exact ⟨_, _, rfl⟩
  · exact ⟨_, _, rfl⟩
  · exact ⟨_, _, rfl⟩
  · exact ⟨_, _, rfl⟩

theorem performed_append (w : World) (xs : List Effect) (n : Nat) :
    performed w ⟨w.trace ++ xs, n⟩ = xs := by
  simp [performed]

theorem launchOutcomes_verifyProbes (env : Env) (o : OpenglOptions) :
    launchOutcomes (verifyProbes env o) = [] := by
  simp only [launchOutcomes, List.filterMap_eq_nil_iff]
  intro e he
  obtain ⟨slot, path, rfl⟩ := verifyProbes_is_probe env o e he
  rfl

theorem launchEffects_verifyProbes (env : Env) (o : OpenglOptions) :
    launchEffects (verifyProbes env o) = [] := by
  simp only [launchEffects, List.filterMap_eq_nil_iff]
  intro e he
  obtain ⟨slot, path, rfl⟩ := verifyProbes_is_probe env o e he
  rfl

theorem timing_verifyProbes (env : Env) (o : OpenglOptions) :
    timing (verifyProbes env o) = [] := by
  simp only [timing, List.filterMap_eq_nil_iff]
  intro e he
  obtain ⟨slot, path, rfl⟩ := verifyProbes_is_probe env o e he
  rfl

/-- The last launch of the retry policy is the one with the closed-form final outcome. -/
theorem finalAttempt_retryEffects (c cmd : String) (sp cancel : Bool) (a : Nat → ExecOutcome)
    (tail : List Effect) (htail : launchOutcomes tail = []) :
    finalAttempt (Effect.print c sp :: (retryEffects cmd cancel a ++ tail)) =
      some (finalOutcome a) := by
  unfold finalAttempt
  have h : launchOutcomes (Effect.print c sp :: (retryEffects cmd cancel a ++ tail)) =
      launchOutcomes (retryEffects cmd cancel a) := by
    simp only [launchOutcomes, List.filterMap_cons, List.filterMap_append] at htail ⊢
    rw [htail, List.append_nil]
  rw [h]
  unfold retryEffects finalOutcome launchCount
  by_cases h1 : (!unsatisfactory (a 0)) = true <;> by_cases h2 : (!unsatisfactory (a 1)) = true <;>
    simp [h1, h2, launchOutcomes]

theorem timing_retryEffects (cmd : String) (cancel : Bool) (a : Nat → ExecOutcome) :
    timing (retryEffects cmd cancel a) =
      if !unsatisfactory (a 0) then [Timing.launch]
      else if !unsatisfactory (a 1) then [Timing.launch, Timing.sleep 2000, Timing.launch]
      else [Timing.launch, Timing.sleep 2000, Timing.launch, Timing.sleep 4000, Timing.launch] := by
  unfold retryEffects
  by_cases h1 : (!unsatisfactory (a 0)) = true <;> by_cases h2 : (!unsatisfactory (a 1)) = true <;>
    simp [h1, h2, timing]

theorem launchEffects_retryEffects (cmd : String) (cancel : Bool) (a : Nat → ExecOutcome) :
    launchEffects (retryEffects cmd cancel a) =
      (List.range (launchCount a)).map fun k => (cmd, cancel, a k) := by
  unfold retryEffects launchCount
  by_cases h1 : (!unsatisfactory (a 0)) = true <;> by_cases h2 : (!unsatisfactory (a 1)) = true <;>
    simp [h1, h2, launchEffects, List.range_succ]

/-- The effects of `Compile`: the print, the retry policy, then probes only. -/
theorem Compile_performed (env : Env) (gl : OpenglOptions) (cancel sp : Bool) (buf : gtString)
    (w : World) (hdev : env.deviceInfoInstance = true) :
    performed w (Compile env gl cancel sp buf w).world =
      Effect.print (CompileCmd (GetVirtualContextPath env.target) gl) sp ::
        (retryEffects (CompileCmd (GetVirtualContextPath env.target) gl) cancel
            (attemptOutcome env gl cancel w) ++
          if (finalOutcome (attemptOutcome env gl cancel w)).launch_succeeded &&
              !((finalOutcome (attemptOutcome env gl cancel w)).captured_output.toLowerCase.find
                kVcErrorToken != -1)
          then verifyProbes env gl else []) := by
  rw [Compile_eq env gl cancel sp buf w hdev]
  cases hl : (finalOutcome (attemptOutcome env gl cancel w)).launch_succeeded <;>
    cases hf : ((finalOutcome (attemptOutcome env gl cancel w)).captured_output.toLowerCase.find
      kVcErrorToken != -1) <;>
    simp [performed_append]

/-- The final attempt of `Compile`, read off the trace, is the closed-form final outcome. -/
theorem Compile_finalAttempt (env : Env) (gl : OpenglOptions) (cancel sp : Bool) (buf : gtString)
    (w : World) (hdev : env.deviceInfoInstance = true) :
    finalAttempt (performed w (Compile env gl cancel sp buf w).world) =
      some (finalOutcome (attemptOutcome env gl cancel w)) := by
  rw [Compile_performed env gl cancel sp buf w hdev]
  apply finalAttempt_retryEffects
  split
  · exact launchOutcomes_verifyProbes env gl
  · rfl

/-- Status and returned text of `Compile` as a function of the final attempt. -/
theorem Compile_classify (env : Env) (gl : OpenglOptions) (cancel sp : Bool) (buf : gtString)
    (w : World) (hdev : env.deviceInfoInstance = true) :
    ((Compile env gl cancel sp buf w).status, (Compile env gl cancel sp buf w).virtual_context_output) =
      if (finalOutcome (attemptOutcome env gl cancel w)).launch_succeeded then
        if (finalOutcome (attemptOutcome env gl cancel w)).captured_output.toLowerCase.find
            kVcErrorToken != -1 then
          (beStatus.kBeStatusOpenglBuildError,
            (finalOutcome (attemptOutcome env gl cancel w)).captured_output)
        else if verifyValue env gl then (beStatus.kBeStatusSuccess, ⟨[]⟩)
        else (beStatus.kBeStatusFailedOutputVerification, ⟨[]⟩)
      else (beStatus.kBeStatusOpenglVirtualContextLaunchFailed, ⟨[]⟩) := by
  rw [Compile_eq env gl cancel sp buf w hdev]
  cases hl : (finalOutcome (attemptOutcome env gl cancel w)).launch_succeeded <;>
    cases hf : ((finalOutcome (attemptOutcome env gl cancel w)).captured_output.toLowerCase.find
      kVcErrorToken != -1) <;>
    cases hv : verifyValue env gl <;> simp

theorem probes_retryEffects (cmd : String) (cancel : Bool) (a : Nat → ExecOutcome) :
    probes (retryEffects cmd cancel a) = [] := by
  unfold retryEffects
  by_cases h1 : (!unsatisfactory (a 0)) = true <;> by_cases h2 : (!unsatisfactory (a 1)) = true <;>
    simp [h1, h2, probes]

/-! ## Result classification of `Compile` -/

/-- C1: when the device-info singleton is non-null, the final attempt of `Compile`
launched successfully and its captured output contains "error:" in some letter case,
the returned status is `kBeStatusOpenglBuildError`, the returned text is the captured
text of that attempt unchanged, and no file is probed. -/
theorem Compile_build_error_on_error_marker (env : Env) (gl : OpenglOptions) (cancel sp : Bool)
    (buf : gtString) (w : World) (a : ExecOutcome)
    (hdev : env.deviceInfoInstance = true)
    (hfinal : finalAttempt (performed w (Compile env gl cancel sp buf w).world) = some a)
    (hlaunch : a.launch_succeeded = true)
    (herr : ContainsErrorAnyCase a.captured_output) :
    (Compile env gl cancel sp buf w).status = beStatus.kBeStatusOpenglBuildError ∧
    (Compile env gl cancel sp buf w).virtual_context_output = a.captured_output ∧
    probes (performed w (Compile env gl cancel sp buf w).world) = [] := by
  rw [Compile_finalAttempt env gl cancel sp buf w hdev] at hfinal
  have ha : finalOutcome (attemptOutcome env gl cancel w) = a := Option.some.inj hfinal
  have hfind := (find_error_token_iff a.captured_output).mpr herr
  have hc := Compile_classify env gl cancel sp buf w hdev
  have hp := Compile_performed env gl cancel sp buf w hdev
  rw [ha] at hc hp
  simp only [hlaunch, hfind, if_true, Prod.mk.injEq] at hc
  refine ⟨hc.1, hc.2, ?_⟩
  rw [hp]
  simp only [hlaunch, hfind, Bool.not_true, Bool.and_false, Bool.false_eq_true, if_false,
    List.append_nil]
  simp only [probes, List.filterMap_cons]
  exact probes_retryEffects _ _ _

/-- C1, instance: the first launch fails, the second one succeeds and reports an
error in upper case in the middle of its output. -/
theorem Compile_build_error_on_error_marker_witness :
    finalAttempt (performed World.init
        (Compile (scriptedEnv [⟨false, gtString.L "boot"⟩,
            ⟨true, gtString.L "shader.vert: ERROR: 0:1: undefined variable x"⟩] ["vert.isa"])
          vertexOnlyOptions false false (gtString.L "stale") World.init).world) =
      some ⟨true, gtString.L "shader.vert: ERROR: 0:1: undefined variable x"⟩ ∧
    ContainsErrorAnyCase (gtString.L "shader.vert: ERROR: 0:1: undefined variable x") ∧
    (Compile (scriptedEnv [⟨false, gtString.L "boot"⟩,
            ⟨true, gtString.L "shader.vert: ERROR: 0:1: undefined variable x"⟩] ["vert.isa"])
          vertexOnlyOptions false false (gtString.L "stale") World.init).status =
        beStatus.kBeStatusOpenglBuildError ∧
    (Compile (scriptedEnv [⟨false, gtString.L "boot"⟩,
            ⟨true, gtString.L "shader.vert: ERROR: 0:1: undefined variable x"⟩] ["vert.isa"])
          vertexOnlyOptions false false (gtString.L "stale") World.init).virtual_context_output =
        gtString.L "shader.vert: ERROR: 0:1: undefined variable x" ∧
    probes (performed World.init
        (Compile (scriptedEnv [⟨false, gtString.L "boot"⟩,
            ⟨true, gtString.L "shader.vert: ERROR: 0:1: undefined variable x"⟩] ["vert.isa"])
          vertexOnlyOptions false false (gtString.L "stale") World.init).world) = [] :=
  have herr : ContainsErrorAnyCase (gtString.L "shader.vert: ERROR: 0:1: undefined variable x") :=
    ⟨"shader.vert: ".data, "ERROR:".data, " 0:1: undefined variable x".data, by decide, by decide⟩
  ⟨by decide, herr,
    Compile_build_error_on_error_marker
      (scriptedEnv [⟨false, gtString.L "boot"⟩,
        ⟨true, gtString.L "shader.vert: ERROR: 0:1: undefined variable x"⟩] ["vert.isa"])
      vertexOnlyOptions false false (gtString.L "stale") World.init
      ⟨true, gtString.L "shader.vert: ERROR: 0:1: undefined variable x"⟩
      (by decide) (by decide) (by decide) herr⟩

/-- C2: when the device-info singleton is non-null and the final attempt of `Compile`
did not launch successfully, the returned status is
`kBeStatusOpenglVirtualContextLaunchFailed` and the returned text is empty, whatever
was captured. -/
theorem Compile_launch_failed_on_failed_final_attempt (env : Env) (gl : OpenglOptions)
    (cancel sp : Bool) (buf : gtString) (w : World) (a : ExecOutcome)
    (hdev : env.deviceInfoInstance = true)
    (hfinal : finalAttempt (performed w (Compile env gl cancel sp buf w).world) = some a)
    (hfail : a.launch_succeeded = false) :
    (Compile env gl cancel sp buf w).status = beStatus.kBeStatusOpenglVirtualContextLaunchFailed ∧
    (Compile env gl cancel sp buf w).virtual_context_output = ⟨[]⟩ := by
  rw [Compile_finalAttempt env gl cancel sp buf w hdev] at hfinal
  have ha : finalOutcome (attemptOutcome env gl cancel w) = a := Option.some.inj hfinal
  have hc := Compile_classify env gl cancel sp buf w hdev
  rw [ha] at hc
  simp only [hfail, Bool.false_eq_true, if_false, Prod.mk.injEq] at hc
  exact hc

/-- C2, instance: three launches fail although each of them captured text, the last one
even text with an error marker. -/
theorem Compile_launch_failed_on_failed_final_attempt_witness :
    finalAttempt (performed World.init
        (Compile (scriptedEnv [⟨false, gtString.L "one"⟩, ⟨false, gtString.L "two"⟩,
            ⟨false, gtString.L "error: three"⟩] ["vert.isa"])
          vertexOnlyOptions false false (gtString.L "stale") World.init).world) =
      some ⟨false, gtString.L "error: three"⟩ ∧
    (Compile (scriptedEnv [⟨false, gtString.L "one"⟩, ⟨false, gtString.L "two"⟩,
            ⟨false, gtString.L "error: three"⟩] ["vert.isa"])
          vertexOnlyOptions false false (gtString.L "stale") World.init).status =
        beStatus.kBeStatusOpenglVirtualContextLaunchFailed ∧
    (Compile (scriptedEnv [⟨false, gtString.L "one"⟩, ⟨false, gtString.L "two"⟩,
            ⟨false, gtString.L "error: three"⟩] ["vert.isa"])
          vertexOnlyOptions false false (gtString.L "stale") World.init).virtual_context_output =
        ⟨[]⟩ :=
  ⟨by decide,
    Compile_launch_failed_on_failed_final_attempt
      (scriptedEnv [⟨false, gtString.L "one"⟩, ⟨false, gtString.L "two"⟩,
        ⟨false, gtString.L "error: three"⟩] ["vert.isa"])
      vertexOnlyOptions false false (gtString.L "stale") World.init
      ⟨false, gtString.L "error: three"⟩ (by decide) (by decide) (by decide)⟩

/-- C3: when the device-info singleton is non-null, the final attempt of `Compile`
launched successfully, its captured output contains no "error:" in any letter case, and
some required output file is missing (a file of a required per-stage category for a stage
with a non-empty input path, or the program binary when binaries are required), the
returned status is `kBeStatusFailedOutputVerification` and the returned text is empty. -/
theorem Compile_output_verification_failed (env : Env) (gl : OpenglOptions) (cancel sp : Bool)
    (buf : gtString) (w : World) (a : ExecOutcome)
    (hdev : env.deviceInfoInstance = true)
    (hfinal : finalAttempt (performed w (Compile env gl cancel sp buf w).world) = some a)
    (hlaunch : a.launch_succeeded = true)
    (hclean : ¬ ContainsErrorAnyCase a.captured_output)
    (hmissing :
      (gl.is_amd_isa_disassembly_required = true ∧ ∃ s : Stage,
        (gl.pipeline_shaders.get s).isEmpty = false ∧
        env.IsFilePresent (gl.isa_disassembly_output_files.get s).asASCIICharArray = false) ∨
      (gl.is_il_disassembly_required = true ∧ ∃ s : Stage,
        (gl.pipeline_shaders.get s).isEmpty = false ∧
        env.IsFilePresent (gl.il_disassembly_output_files.get s).asASCIICharArray = false) ∨
      (gl.is_stats_required = true ∧ ∃ s : Stage,
        (gl.pipeline_shaders.get s).isEmpty = false ∧
        env.IsFilePresent (gl.stats_output_files.get s).asASCIICharArray = false) ∨
      (gl.is_amd_isa_binaries_required = true ∧
        env.IsFilePresent gl.program_binary_filename.asASCIICharArray = false)) :
    (Compile env gl cancel sp buf w).status = beStatus.kBeStatusFailedOutputVerification ∧
    (Compile env gl cancel sp buf w).virtual_context_output = ⟨[]⟩ := by
  rw [Compile_finalAttempt env gl cancel sp buf w hdev] at hfinal
  have ha : finalOutcome (attemptOutcome env gl cancel w) = a := Option.some.inj hfinal
  have hfind : (a.captured_output.toLowerCase.find kVcErrorToken != -1) = false := by
    cases h : (a.captured_output.toLowerCase.find kVcErrorToken != -1)
    · rfl
    · exact absurd ((find_error_token_iff a.captured_output).mp h) hclean
  have hv : verifyValue env gl = false := by
    cases h : verifyValue env gl
    · rfl
    · exfalso
      obtain ⟨h1, h2, h3, h4⟩ := (verifyValue_iff env gl).mp h
      rcases hmissing with ⟨hf, s, hs, hp⟩ | ⟨hf, s, hs, hp⟩ | ⟨hf, s, hs, hp⟩ | ⟨hf, hp⟩
      · rw [h1 hf s hs] at hp; exact Bool.noConfusion hp
      · rw [h2 hf s hs] at hp; exact Bool.noConfusion hp
      · rw [h3 hf s hs] at hp; exact Bool.noConfusion hp
      · rw [h4 hf] at hp; exact Bool.noConfusion hp
  have hc := Compile_classify env gl cancel sp buf w hdev
  rw [ha] at hc
  simp only [hlaunch, hfind, hv, if_true, Bool.false_eq_true, if_false, Prod.mk.injEq] at hc
  exact hc

/-- C3, instance: the vertex ISA file is required, the tool reports "compiled ok", and
the file is not on disk. -/
theorem Compile_output_verification_failed_witness :
    finalAttempt (performed World.init
        (Compile (scriptedEnv [⟨true, gtString.L "compiled ok"⟩] [])
          vertexOnlyOptions false false (gtString.L "") World.init).world) =
      some ⟨true, gtString.L "compiled ok"⟩ ∧
    ¬ ContainsErrorAnyCase (gtString.L "compiled ok") ∧
    (Compile (scriptedEnv [⟨true, gtString.L "compiled ok"⟩] [])
          vertexOnlyOptions false false (gtString.L "") World.init).status =
        beStatus.kBeStatusFailedOutputVerification ∧
    (Compile (scriptedEnv [⟨true, gtString.L "compiled ok"⟩] [])
          vertexOnlyOptions false false (gtString.L "") World.init).virtual_context_output = ⟨[]⟩ :=
  have hclean : ¬ ContainsErrorAnyCase (gtString.L "compiled ok") := fun h =>
    absurd ((find_error_token_iff _).mpr h) (by decide)
  ⟨by decide, hclean,
    Compile_output_verification_failed (scriptedEnv [⟨true, gtString.L "compiled ok"⟩] [])
      vertexOnlyOptions false false (gtString.L "") World.init ⟨true, gtString.L "compiled ok"⟩
      (by decide) (by decide) (by decide) hclean
      (Or.inl ⟨by decide, Stage.vertex, by decide, by decide⟩)⟩

/-- C4: when the device-info singleton is non-null, the final attempt of `Compile`
launched successfully, its captured output contains no "error:" in any letter case, and
`VerifyVirtualContextOutput` returns true for the request, the returned status is
`kBeStatusSuccess` and the returned text is empty. -/
theorem Compile_success (env : Env) (gl : OpenglOptions) (cancel sp : Bool)
    (buf : gtString) (w w0 : World) (a : ExecOutcome)
    (hdev : env.deviceInfoInstance = true)
    (hfinal : finalAttempt (performed w (Compile env gl cancel sp buf w).world) = some a)
    (hlaunch : a.launch_succeeded = true)
    (hclean : ¬ ContainsErrorAnyCase a.captured_output)
    (hverify : (VerifyVirtualContextOutput env gl w0).1 = true) :
    (Compile env gl cancel sp buf w).status = beStatus.kBeStatusSuccess ∧
    (Compile env gl cancel sp buf w).virtual_context_output = ⟨[]⟩ := by
  rw [Compile_finalAttempt env gl cancel sp buf w hdev] at hfinal
  have ha : finalOutcome (attemptOutcome env gl cancel w) = a := Option.some.inj hfinal
  have hfind : (a.captured_output.toLowerCase.find kVcErrorToken != -1) = false := by
    cases h : (a.captured_output.toLowerCase.find kVcErrorToken != -1)
    · rfl
    · exact absurd ((find_error_token_iff a.captured_output).mp h) hclean
  rw [VerifyVirtualContextOutput_eq] at hverify
  have hv : verifyValue env gl = true := hverify
  have hc := Compile_classify env gl cancel sp buf w hdev
  rw [ha] at hc
  simp only [hlaunch, hfind, hv, if_true, Bool.false_eq_true, if_false, Prod.mk.injEq] at hc
  exact hc

/-- C4, instance: only the vertex shader is set, ISA disassembly is required, the vertex
ISA file is on disk, and the first attempt launches with output "compiled ok". -/
theorem Compile_success_witness :
    finalAttempt (performed World.init
        (Compile (scriptedEnv [⟨true, gtString.L "compiled ok"⟩] ["vert.isa"])
          vertexOnlyOptions false false (gtString.L "") World.init).world) =
      some ⟨true, gtString.L "compiled ok"⟩ ∧
    ¬ ContainsErrorAnyCase (gtString.L "compiled ok") ∧
    (VerifyVirtualContextOutput (scriptedEnv [⟨true, gtString.L "compiled ok"⟩] ["vert.isa"])
        vertexOnlyOptions World.init).1 = true ∧
    (Compile (scriptedEnv [⟨true, gtString.L "compiled ok"⟩] ["vert.isa"])
          vertexOnlyOptions false false (gtString.L "") World.init).status =
        beStatus.kBeStatusSuccess ∧
    (Compile (scriptedEnv [⟨true, gtString.L "compiled ok"⟩] ["vert.isa"])
          vertexOnlyOptions false false (gtString.L "") World.init).virtual_context_output = ⟨[]⟩ :=
  have hclean : ¬ ContainsErrorAnyCase (gtString.L "compiled ok") := fun h =>
    absurd ((find_error_token_iff _).mpr h) (by decide)
  ⟨by decide, hclean, by decide,
    Compile_success (scriptedEnv [⟨true, gtString.L "compiled ok"⟩] ["vert.isa"])
      vertexOnlyOptions false false (gtString.L "") World.init World.init
      ⟨true, gtString.L "compiled ok"⟩
      (by decide) (by decide) (by decide) hclean (by decide)⟩

/-- C5: evaluation of `Compile` on a request with no required output whose three launches
all report success with empty output. All three attempts are made, the output of the
final attempt is empty, and the returned status is `kBeStatusSuccess`, not
`kBeStatusOpenglVirtualContextLaunchFailed`. -/
theorem Compile_empty_output_after_retries_is_success :
    timing (performed World.init
        (Compile (scriptedEnv [⟨true, ⟨[]⟩⟩, ⟨true, ⟨[]⟩⟩, ⟨true, ⟨[]⟩⟩] [])
          { vertexOnlyOptions with is_amd_isa_disassembly_required := false }
          false false (gtString.L "") World.init).world) =
      [Timing.launch, Timing.sleep 2000, Timing.launch, Timing.sleep 4000, Timing.launch] ∧
    finalAttempt (performed World.init
        (Compile (scriptedEnv [⟨true, ⟨[]⟩⟩, ⟨true, ⟨[]⟩⟩, ⟨true, ⟨[]⟩⟩] [])
          { vertexOnlyOptions with is_amd_isa_disassembly_required := false }
          false false (gtString.L "") World.init).world) = some ⟨true, ⟨[]⟩⟩ ∧
    (Compile (scriptedEnv [⟨true, ⟨[]⟩⟩, ⟨true, ⟨[]⟩⟩, ⟨true, ⟨[]⟩⟩] [])
          { vertexOnlyOptions with is_amd_isa_disassembly_required := false }
          false false (gtString.L "") World.init).status = beStatus.kBeStatusSuccess := by
  decide

/-! ## Retry policy of `Compile` -/

/-- C6: when the device-info singleton is non-null, the launches and sleeps performed by
`Compile` are exactly one launch, or launch / sleep 2000 ms / launch, or
launch / sleep 2000 ms / launch / sleep 4000 ms / launch. -/
theorem Compile_launch_sleep_schedule (env : Env) (gl : OpenglOptions) (cancel sp : Bool)
    (buf : gtString) (w : World) (hdev : env.deviceInfoInstance = true) :
    timing (performed w (Compile env gl cancel sp buf w).world) = [Timing.launch] ∨
    timing (performed w (Compile env gl cancel sp buf w).world) =
      [Timing.launch, Timing.sleep 2000, Timing.launch] ∨
    timing (performed w (Compile env gl cancel sp buf w).world) =
      [Timing.launch, Timing.sleep 2000, Timing.launch, Timing.sleep 4000, Timing.launch] := by
  have ht : timing (performed w (Compile env gl cancel sp buf w).world) =
      timing (retryEffects (CompileCmd (GetVirtualContextPath env.target) gl) cancel
        (attemptOutcome env gl cancel w)) := by
    rw [Compile_performed env gl cancel sp buf w hdev]
    have htail : timing (if (finalOutcome (attemptOutcome env gl cancel w)).launch_succeeded &&
        !((finalOutcome (attemptOutcome env gl cancel w)).captured_output.toLowerCase.find
          kVcErrorToken != -1) then verifyProbes env gl else []) = [] := by
      split
      · exact timing_verifyProbes env gl
      · rfl
    simp only [timing, List.filterMap_cons, List.filterMap_append] at htail ⊢
    rw [htail, List.append_nil]
  rw [ht, timing_retryEffects]
  by_cases h1 : (!unsatisfactory (attemptOutcome env gl cancel w 0)) = true
  · exact Or.inl (by simp [h1])
  · by_cases h2 : (!unsatisfactory (attemptOutcome env gl cancel w 1)) = true
    · exact Or.inr (Or.inl (by simp [h1, h2]))
    · exact Or.inr (Or.inr (by simp [h1, h2]))

/-- C6, instance: a failed launch followed by a launch that captured text. -/
theorem Compile_launch_sleep_schedule_witness :
    (scriptedEnv [⟨false, gtString.L ""⟩, ⟨true, gtString.L "compiled ok"⟩]
        ["vert.isa"]).deviceInfoInstance = true ∧
    timing (performed World.init
        (Compile (scriptedEnv [⟨false, gtString.L ""⟩, ⟨true, gtString.L "compiled ok"⟩]
            ["vert.isa"])
          vertexOnlyOptions false true (gtString.L "") World.init).world) =
      [Timing.launch, Timing.sleep 2000, Timing.launch] :=
  ⟨by decide,
    (Compile_launch_sleep_schedule
      (scriptedEnv [⟨false, gtString.L ""⟩, ⟨true, gtString.L "compiled ok"⟩] ["vert.isa"])
      vertexOnlyOptions false true (gtString.L "") World.init (by decide)).elim
      (fun h => absurd h (by decide))
      (fun h => h.elim id (fun h3 => absurd h3 (by decide)))⟩

/-- C7: when the device-info singleton is non-null, `Compile` launches the process once if
the first attempt launched with non-empty output, otherwise twice if the second attempt
launched with non-empty output, otherwise three times; attempt `k + 1` is the launch that
is preceded by `k` earlier launches of this call, and every attempt is given the command
built for the request and the caller's cancel flag. -/
theorem Compile_retry_policy (env : Env) (gl : OpenglOptions) (cancel sp : Bool)
    (buf : gtString) (w : World) (hdev : env.deviceInfoInstance = true) :
    (launchEffects (performed w (Compile env gl cancel sp buf w).world)).length =
      (if (attemptOutcome env gl cancel w 0).launch_succeeded = true ∧
          (attemptOutcome env gl cancel w 0).captured_output.isEmpty = false then 1
       else if (attemptOutcome env gl cancel w 1).launch_succeeded = true ∧
          (attemptOutcome env gl cancel w 1).captured_output.isEmpty = false then 2
       else 3) ∧
    launchEffects (performed w (Compile env gl cancel sp buf w).world) =
      (List.range (launchEffects (performed w (Compile env gl cancel sp buf w).world)).length).map
        fun k => (CompileCmd (GetVirtualContextPath env.target) gl, cancel,
          attemptOutcome env gl cancel w k) := by
  have hl : launchEffects (performed w (Compile env gl cancel sp buf w).world) =
      (List.range (launchCount (attemptOutcome env gl cancel w))).map
        fun k => (CompileCmd (GetVirtualContextPath env.target) gl, cancel,
          attemptOutcome env gl cancel w k) := by
    rw [Compile_performed env gl cancel sp buf w hdev, ← launchEffects_retryEffects]
    have htail : launchEffects
        (if (finalOutcome (attemptOutcome env gl cancel w)).launch_succeeded &&
          !((finalOutcome (attemptOutcome env gl cancel w)).captured_output.toLowerCase.find
            kVcErrorToken != -1) then verifyProbes env gl else []) = [] := by
      split
      · exact launchEffects_verifyProbes env gl
      · rfl
    simp only [launchEffects, List.filterMap_cons, List.filterMap_append] at htail ⊢
    rw [htail, List.append_nil]
  have hn : (launchEffects (performed w (Compile env gl cancel sp buf w).world)).length =
      launchCount (attemptOutcome env gl cancel w) := by
    rw [hl, List.length_map, List.length_range]
  refine ⟨?_, ?_⟩
  · rw [hn]
    unfold launchCount unsatisfactory
    cases (attemptOutcome env gl cancel w 0).launch_succeeded <;>
      cases (attemptOutcome env gl cancel w 0).captured_output.isEmpty <;>
      cases (attemptOutcome env gl cancel w 1).launch_succeeded <;>
      cases (attemptOutcome env gl cancel w 1).captured_output.isEmpty <;> simp
  · rw [hn]
    exact hl

/-- C7, instance: the first launch captures nothing, the second launch fails, the third
is made although it fails as well. -/
theorem Compile_retry_policy_witness :
    (scriptedEnv [⟨true, gtString.L ""⟩, ⟨false, gtString.L "x"⟩, ⟨false, gtString.L ""⟩]
        []).deviceInfoInstance = true ∧
    (launchEffects (performed World.init
        (Compile (scriptedEnv [⟨true, gtString.L ""⟩, ⟨false, gtString.L "x"⟩,
            ⟨false, gtString.L ""⟩] [])
          vertexOnlyOptions true false (gtString.L "") World.init).world)).length = 3 :=
  ⟨by decide,
    (Compile_retry_policy
      (scriptedEnv [⟨true, gtString.L ""⟩, ⟨false, gtString.L "x"⟩, ⟨false, gtString.L ""⟩] [])
      vertexOnlyOptions true false (gtString.L "") World.init (by decide)).1.trans (by decide)⟩

theorem groupOk_congr (env : Env) (i o o1 : BeProgramPipeline)
    (h : ∀ s : Stage, (i.get s).isEmpty = false → o1.get s = o.get s) :
    groupOk env i o1 = groupOk env i o := by
  unfold groupOk
  congr 1
  funext s
  cases hs : (i.get s).isEmpty
  · rw [h s hs]
  · rfl

theorem groupProbes_congr (mk : Stage → OutputSlot) (i o o1 : BeProgramPipeline)
    (h : ∀ s : Stage, (i.get s).isEmpty = false → o1.get s = o.get s) :
    groupProbes mk i o1 = groupProbes mk i o := by
  unfold groupProbes
  congr 1
  funext s
  cases hs : (i.get s).isEmpty
  · rw [h s hs]
  · rfl

theorem mem_probes (t : List Effect) (slot : OutputSlot) (path : String) :
    (slot, path) ∈ probes t ↔ Effect.probe slot path ∈ t := by
  simp only [probes, List.mem_filterMap]
  constructor
  · rintro ⟨e, he, h⟩
    cases e <;> simp at h
    obtain ⟨rfl, rfl⟩ := h
    exact he
  · intro h
    exact ⟨_, h, rfl⟩

/-! ## The output-file verifier -/

/-- C8: `VerifyVirtualContextOutput` returns true exactly when, for each of the three
per-stage categories (ISA, IL, statistics) whose flag is set, every stage with a non-empty
input path has its output file of that category present, and, when the binary flag is set,
the program binary file is present. -/
theorem VerifyVirtualContextOutput_true_iff (env : Env) (o : OpenglOptions) (w : World) :
    (VerifyVirtualContextOutput env o w).1 = true ↔
      (o.is_amd_isa_disassembly_required = true → ∀ s : Stage,
          (o.pipeline_shaders.get s).isEmpty = false →
          env.IsFilePresent (o.isa_disassembly_output_files.get s).asASCIICharArray = true) ∧
      (o.is_il_disassembly_required = true → ∀ s : Stage,
          (o.pipeline_shaders.get s).isEmpty = false →
          env.IsFilePresent (o.il_disassembly_output_files.get s).asASCIICharArray = true) ∧
      (o.is_stats_required = true → ∀ s : Stage,
          (o.pipeline_shaders.get s).isEmpty = false →
          env.IsFilePresent (o.stats_output_files.get s).asASCIICharArray = true) ∧
      (o.is_amd_isa_binaries_required = true →
          env.IsFilePresent o.program_binary_filename.asASCIICharArray = true) := by
  rw [VerifyVirtualContextOutput_eq]
  exact verifyValue_iff env o

/-- C9: when none of the four required-output flags is set, `VerifyVirtualContextOutput`
returns true and performs no effect, so it probes no file. -/
theorem VerifyVirtualContextOutput_vacuous (env : Env) (o : OpenglOptions) (w : World)
    (hisa : o.is_amd_isa_disassembly_required = false)
    (hil : o.is_il_disassembly_required = false)
    (hbin : o.is_amd_isa_binaries_required = false)
    (hstats : o.is_stats_required = false) :
    (VerifyVirtualContextOutput env o w).1 = true ∧
    (VerifyVirtualContextOutput env o w).2 = w ∧
    probes (performed w (VerifyVirtualContextOutput env o w).2) = [] := by
  have h : VerifyVirtualContextOutput env o w = (true, w) := by
    rw [VerifyVirtualContextOutput_eq]
    simp [verifyValue, verifyProbes, hisa, hil, hbin, hstats]
  rw [h]
  refine ⟨rfl, rfl, ?_⟩
  simp [performed, probes]

/-- C9, instance: every stage is set, every output path names a missing file, no file
exists, and nothing is required. -/
theorem VerifyVirtualContextOutput_vacuous_witness :
    (VerifyVirtualContextOutput (scriptedEnv [] []) nothingRequiredOptions World.init).1 = true ∧
    (VerifyVirtualContextOutput (scriptedEnv [] []) nothingRequiredOptions World.init).2 =
      World.init ∧
    probes (performed World.init
      (VerifyVirtualContextOutput (scriptedEnv [] []) nothingRequiredOptions World.init).2) = [] :=
  VerifyVirtualContextOutput_vacuous (scriptedEnv [] []) nothingRequiredOptions World.init
    (by decide) (by decide) (by decide) (by decide)

/-- C10: `VerifyVirtualContextOutput` makes no probe for the ISA, IL or statistics output
of a stage whose input path is empty; and a request that agrees with `o` on the input
paths, the four flags, the binary path and the output paths of the stages with a non-empty
input path gets the same result and the same probes. -/
theorem VerifyVirtualContextOutput_skips_absent_stages (env : Env) (o o1 : OpenglOptions)
    (w : World)
    (hin : o1.pipeline_shaders = o.pipeline_shaders)
    (hisa : o1.is_amd_isa_disassembly_required = o.is_amd_isa_disassembly_required)
    (hil : o1.is_il_disassembly_required = o.is_il_disassembly_required)
    (hbin : o1.is_amd_isa_binaries_required = o.is_amd_isa_binaries_required)
    (hstats : o1.is_stats_required = o.is_stats_required)
    (hfile : o1.program_binary_filename = o.program_binary_filename)
    (hout : ∀ s : Stage, (o.pipeline_shaders.get s).isEmpty = false →
      o1.isa_disassembly_output_files.get s = o.isa_disassembly_output_files.get s ∧
      o1.il_disassembly_output_files.get s = o.il_disassembly_output_files.get s ∧
      o1.stats_output_files.get s = o.stats_output_files.get s) :
    (∀ (s : Stage) (path : String),
      ((OutputSlot.isa s, path) ∈ probes (performed w (VerifyVirtualContextOutput env o w).2) ∨
       (OutputSlot.il s, path) ∈ probes (performed w (VerifyVirtualContextOutput env o w).2) ∨
       (OutputSlot.stats s, path) ∈ probes (performed w (VerifyVirtualContextOutput env o w).2)) →
      (o.pipeline_shaders.get s).isEmpty = false) ∧
    VerifyVirtualContextOutput env o1 w = VerifyVirtualContextOutput env o w := by
  constructor
  · intro s path h
    rw [VerifyVirtualContextOutput_eq, performed_append] at h
    simp only [mem_probes] at h
    rcases h with h | h | h
    · rcases mem_verifyProbes env o _ h with ⟨_, t, ht, he⟩ | ⟨_, t, ht, he⟩ | ⟨_, he⟩ |
        ⟨_, t, ht, he⟩
      · injection he with h1 h2; injection h1 with h3; rw [h3]; exact ht
      · injection he with h1 h2; cases h1
      · injection he with h1 h2; cases h1
      · injection he with h1 h2; cases h1
    · rcases mem_verifyProbes env o _ h with ⟨_, t, ht, he⟩ | ⟨_, t, ht, he⟩ | ⟨_, he⟩ |
        ⟨_, t, ht, he⟩
      · injection he with h1 h2; cases h1
      · injection he with h1 h2; injection h1 with h3; rw [h3]; exact ht
      · injection he with h1 h2; cases h1
      · injection he with h1 h2; cases h1
    · rcases mem_verifyProbes env o _ h with ⟨_, t, ht, he⟩ | ⟨_, t, ht, he⟩ | ⟨_, he⟩ |
        ⟨_, t, ht, he⟩
      · injection he with h1 h2; cases h1
      · injection he with h1 h2; cases h1
      · injection he with h1 h2; cases h1
      · injection he with h1 h2; injection h1 with h3; rw [h3]; exact ht
  · have g1 := groupOk_congr env o.pipeline_shaders o.isa_disassembly_output_files
      o1.isa_disassembly_output_files (fun s hs => (hout s hs).1)
    have g2 := groupOk_congr env o.pipeline_shaders o.il_disassembly_output_files
      o1.il_disassembly_output_files (fun s hs => (hout s hs).2.1)
    have g3 := groupOk_congr env o.pipeline_shaders o.stats_output_files
      o1.stats_output_files (fun s hs => (hout s hs).2.2)
    have p1 := groupProbes_congr OutputSlot.isa o.pipeline_shaders o.isa_disassembly_output_files
      o1.isa_disassembly_output_files (fun s hs => (hout s hs).1)
    have p2 := groupProbes_congr OutputSlot.il o.pipeline_shaders o.il_disassembly_output_files
      o1.il_disassembly_output_files (fun s hs => (hout s hs).2.1)
    have p3 := groupProbes_congr OutputSlot.stats o.pipeline_shaders o.stats_output_files
      o1.stats_output_files (fun s hs => (hout s hs).2.2)
    rw [VerifyVirtualContextOutput_eq, VerifyVirtualContextOutput_eq]
    simp only [verifyValue, verifyProbes, hin, hisa, hil, hbin, hstats, hfile, g1, g2, g3, p1, p2,
      p3]

/-- C10, instance: output paths written into the slots of stages without an input path
change neither the result nor the probes, and the only probe is the one for the vertex
ISA file. -/
theorem VerifyVirtualContextOutput_skips_absent_stages_witness :
    VerifyVirtualContextOutput (scriptedEnv [] ["vert.isa"]) vertexOnlyGarbageOptions World.init =
      VerifyVirtualContextOutput (scriptedEnv [] ["vert.isa"]) vertexOnlyOptions World.init ∧
    probes (performed World.init
      (VerifyVirtualContextOutput (scriptedEnv [] ["vert.isa"]) vertexOnlyGarbageOptions
        World.init).2) = [(OutputSlot.isa Stage.vertex, "vert.isa")] :=
  ⟨(VerifyVirtualContextOutput_skips_absent_stages (scriptedEnv [] ["vert.isa"])
      vertexOnlyOptions vertexOnlyGarbageOptions World.init
      (by decide) (by decide) (by decide) (by decide) (by decide) (by decide)
      (by intro s; cases s <;> decide)).2,
    by decide⟩

/-! ## The command line -/

theorem gtString_eq_empty_of_isEmpty (t : gtString) (h : t.isEmpty = true) : t = ⟨[]⟩ := by
  cases t with
  | mk chars =>
    cases chars with
    | nil => rfl
    | cons c cs => simp [gtString.isEmpty] at h

/-- The method `Compile` when the device-info singleton is null. -/
theorem Compile_of_null (env : Env) (gl : OpenglOptions) (cancel sp : Bool) (buf : gtString)
    (w : World) (hdev : env.deviceInfoInstance = false) :
    Compile env gl cancel sp buf w = ⟨beStatus.kBeStatusSuccess, ⟨[]⟩, w⟩ := by
  unfold Compile
  simp only [hdev, Bool.false_eq_true, if_false, gtString.makeEmpty]
  cases h : buf.isEmpty
  · simp
  · simp [gtString_eq_empty_of_isEmpty buf h]

/-- The launches of `Compile`, when the device-info singleton is non-null. -/
theorem Compile_launchEffects (env : Env) (gl : OpenglOptions) (cancel sp : Bool)
    (buf : gtString) (w : World) (hdev : env.deviceInfoInstance = true) :
    launchEffects (performed w (Compile env gl cancel sp buf w).world) =
      (List.range (launchCount (attemptOutcome env gl cancel w))).map
        fun k => (CompileCmd (GetVirtualContextPath env.target) gl, cancel,
          attemptOutcome env gl cancel w k) := by
  rw [Compile_performed env gl cancel sp buf w hdev, ← launchEffects_retryEffects]
  have htail : launchEffects
      (if (finalOutcome (attemptOutcome env gl cancel w)).launch_succeeded &&
        !((finalOutcome (attemptOutcome env gl cancel w)).captured_output.toLowerCase.find
          kVcErrorToken != -1) then verifyProbes env gl else []) = [] := by
    split
    · exact launchEffects_verifyProbes env gl
    · rfl
  simp only [launchEffects, List.filterMap_cons, List.filterMap_append] at htail ⊢
  rw [htail, List.append_nil]

/-- The stream built by `Compile` is the executable path, a space, a double quote, the
28 fields each followed by a semicolon, and a double quote. -/
theorem CompileCmd_eq (vcPath : String) (gl : OpenglOptions) :
    CompileCmd vcPath gl = vcPath ++ " " ++ "\"" ++ joinTerminated (specFields gl) ++ "\"" := by
  apply String.ext
  simp only [CompileCmd, putField, joinTerminated, specFields, VC_CMD_DELIMITER,
    String.data_append, String.data_push, List.append_assoc]
  rfl

/-- C11: the command built by `Compile` is the executable path, one space, a double quote,
the 28 positional fields (six ISA output paths, the binary output path, six statistics
output paths, the decimal chip family and revision, six input paths, one empty field, six
IL output paths) each immediately followed by a semicolon, and a closing double quote;
every launch made by `Compile` is given exactly this string. -/
theorem Compile_command_layout (env : Env) (gl : OpenglOptions) (cancel sp : Bool)
    (buf : gtString) (w : World) :
    CompileCmd (GetVirtualContextPath env.target) gl =
      GetVirtualContextPath env.target ++ " " ++ "\"" ++ joinTerminated (specFields gl) ++ "\"" ∧
    (specFields gl).length = 28 ∧
    ∀ e ∈ launchEffects (performed w (Compile env gl cancel sp buf w).world),
      e.1 = GetVirtualContextPath env.target ++ " " ++ "\"" ++ joinTerminated (specFields gl) ++
        "\"" := by
  refine ⟨CompileCmd_eq _ gl, rfl, ?_⟩
  intro e he
  cases hdev : env.deviceInfoInstance
  · rw [Compile_of_null env gl cancel sp buf w hdev] at he
    simp [performed, launchEffects] at he
  · rw [Compile_launchEffects env gl cancel sp buf w hdev] at he
    obtain ⟨k, _, rfl⟩ := List.mem_map.mp he
    exact CompileCmd_eq _ gl

theorem digitChar_ne_semicolon (m : Nat) (h : m < 10) : Nat.digitChar m ≠ ';' := by
  interval_cases m <;> decide

theorem toDigitsCore_no_semicolon (fuel n : Nat) (ds : List Char) (h : ∀ c ∈ ds, c ≠ ';') :
    ∀ c ∈ Nat.toDigitsCore 10 fuel n ds, c ≠ ';' := by
  induction fuel generalizing n ds with
  | zero => simpa [Nat.toDigitsCore] using h
  | succ fuel ih =>
    have hd : ∀ c ∈ Nat.digitChar (n % 10) :: ds, c ≠ ';' := by
      intro c hc
      rcases List.mem_cons.mp hc with rfl | hc
      · exact digitChar_ne_semicolon _ (Nat.mod_lt _ (by decide))
      · exact h c hc
    simp only [Nat.toDigitsCore]
    split
    · exact hd
    · exact ih _ _ hd

/-- The decimal rendering of a number contains no semicolon. -/
theorem repr_no_semicolon (n : Nat) : ';' ∉ (Nat.repr n).data := by
  intro h
  exact toDigitsCore_no_semicolon (n + 1) n [] (by simp) ';' h rfl

theorem splitOnChar_append_delim (d : Char) (f rest : List Char) (h : d ∉ f) :
    splitOnChar d (f ++ d :: rest) = f :: splitOnChar d rest := by
  induction f with
  | nil => simp [splitOnChar]
  | cons c f ih =>
    have hc : c ≠ d := fun e => h (by simp [e])
    have hf : d ∉ f := fun e => h (List.mem_cons_of_mem _ e)
    have ih2 := ih hf
    simp only [List.cons_append, splitOnChar, hc, if_false]
    rw [show f.append (d :: rest) = f ++ d :: rest from rfl, ih2]

/-- Splitting semicolon-terminated fields gives the fields back, followed by one empty piece. -/
theorem splitOnChar_joinTerminated (fields : List String)
    (h : ∀ f ∈ fields, ';' ∉ f.data) :
    splitOnChar ';' (joinTerminated fields).data = fields.map String.data ++ [[]] := by
  induction fields with
  | nil => rfl
  | cons f fs ih =>
    have hsplit := splitOnChar_append_delim ';' f.data (joinTerminated fs).data
      (h f (List.mem_cons_self _ _))
    simp only [joinTerminated, String.data_append, List.append_assoc, List.map_cons,
      List.cons_append]
    rw [List.nil_append, hsplit, ih (fun g hg => h g (List.mem_cons_of_mem _ hg))]

/-- The quoted argument of a command whose executable path contains no double quote. -/
theorem quotedArgument_eq (vcPath arg : String) (h : ∀ c ∈ vcPath.data, c ≠ '"') :
    quotedArgument (vcPath ++ " " ++ "\"" ++ arg ++ "\"") = arg.data := by
  unfold quotedArgument
  have h1 : (vcPath ++ " " ++ "\"" ++ arg ++ "\"").data =
      (vcPath.data ++ [' ']) ++ ('"' :: (arg.data ++ ['"'])) := by
    simp only [String.data_append, List.append_assoc]
    rfl
  rw [h1, List.dropWhile_append_of_pos, List.dropWhile_cons_of_neg (by decide)]
  · simp
  · intro c hc
    rcases List.mem_append.mp hc with hc | hc
    · simpa using h c hc
    · rw [List.mem_singleton.mp hc]; decide

theorem GetVirtualContextPath_no_quote (target : BuildTarget) :
    ∀ c ∈ (GetVirtualContextPath target).data, c ≠ '"' := by
  cases target <;> decide

theorem specFields_no_semicolon (gl : OpenglOptions)
    (hclean : ∀ p ∈ allPaths gl, ';' ∉ p.chars) : ∀ f ∈ specFields gl, ';' ∉ f.data := by
  have hp : ∀ p : gtString, p ∈ allPaths gl → ';' ∉ p.asASCIICharArray.data :=
    fun p hp => hclean p hp
  intro f hf
  simp only [specFields, List.mem_cons, List.mem_singleton, List.not_mem_nil, or_false] at hf
  rcases hf with h | h | h | h | h | h | h | h | h | h | h | h | h | h | h | h | h | h | h | h | h | h | h | h | h | h | h | h <;> subst h <;>
    first
    | exact repr_no_semicolon _
    | exact (by decide : ';' ∉ ("" : String).data)
    | exact hp _ (by simp [allPaths])

/-- The pieces of the quoted argument built by `Compile`, for a request without semicolons. -/
theorem CompileCmd_pieces (target : BuildTarget) (gl : OpenglOptions)
    (hclean : ∀ p ∈ allPaths gl, ';' ∉ p.chars) :
    splitOnChar ';' (quotedArgument (CompileCmd (GetVirtualContextPath target) gl)) =
      (specFields gl).map String.data ++ [[]] := by
  rw [CompileCmd_eq, quotedArgument_eq _ _ (GetVirtualContextPath_no_quote target),
    splitOnChar_joinTerminated _ (specFields_no_semicolon gl hclean)]

/-- C12: for requests whose path strings contain no semicolon, the pieces obtained by
splitting the quoted argument built by `Compile` on semicolons are the 28 positional fields
in order followed by one empty piece, 29 in all, so two such requests give the same number
of pieces whichever stages they populate. -/
theorem Compile_argument_pieces (target : BuildTarget) (gl gl2 : OpenglOptions)
    (hclean : ∀ p ∈ allPaths gl, ';' ∉ p.chars)
    (hclean2 : ∀ p ∈ allPaths gl2, ';' ∉ p.chars) :
    splitOnChar ';' (quotedArgument (CompileCmd (GetVirtualContextPath target) gl)) =
      (specFields gl).map String.data ++ [[]] ∧
    (splitOnChar ';' (quotedArgument (CompileCmd (GetVirtualContextPath target) gl))).length = 29 ∧
    (splitOnChar ';' (quotedArgument (CompileCmd (GetVirtualContextPath target) gl2))).length =
      (splitOnChar ';' (quotedArgument (CompileCmd (GetVirtualContextPath target) gl))).length := by
  rw [CompileCmd_pieces target gl hclean, CompileCmd_pieces target gl2 hclean2]
  exact ⟨rfl, rfl, rfl⟩

/-- C12, instance: a compute-only pipeline and a six-stage pipeline give 29 pieces each,
and in the compute-only command the fields of the five other stages are empty. -/
theorem Compile_argument_pieces_witness :
    (splitOnChar ';' (quotedArgument
        (CompileCmd (GetVirtualContextPath BuildTarget.win64) computeOnlyOptions))).map String.mk =
      ["", "", "", "", "", "k.isa", "k.bin", "", "", "", "", "", "k.csv", "143", "40",
       "", "", "", "", "", "k.comp", "", "", "", "", "", "", "k.il", ""] ∧
    (splitOnChar ';' (quotedArgument
        (CompileCmd (GetVirtualContextPath BuildTarget.win64) fullPipelineOptions))).length =
      (splitOnChar ';' (quotedArgument
        (CompileCmd (GetVirtualContextPath BuildTarget.win64) computeOnlyOptions))).length :=
  ⟨by decide,
    (Compile_argument_pieces BuildTarget.win64 computeOnlyOptions fullPipelineOptions
      (by decide) (by decide)).2.2⟩

/-! ## Device table and device enumeration -/

/-- Filling the empty static map stores the assignments as they are written: no key is
assigned twice. -/
theorem fill_eq :
    kGlBackendAssignments.foldl (fun (m : DeviceMap) e => m.assign e.1 e.2) [] =
      kGlBackendAssignments := by
  decide

theorem lookup_assignment :
    ∀ e ∈ kGlBackendAssignments, kGlBackendAssignments.lookup e.1 = some e.2 := by
  decide

/-- A call of `GetDeviceGLInfo` on the empty map (the first call) and on the filled map (a
later call) looks the name up in the filled map and leaves the filled map behind. -/
theorem GetDeviceGLInfo_eq (first : Bool) (device_name : String) (f0 r0 : Nat) :
    GetDeviceGLInfo (if first then [] else kGlBackendAssignments) device_name f0 r0 =
      match kGlBackendAssignments.lookup device_name with
      | some v => (true, v.1, v.2, kGlBackendAssignments)
      | none => (false, f0, r0, kGlBackendAssignments) := by
  cases first
  · have hne : List.isEmpty kGlBackendAssignments = false := rfl
    simp only [GetDeviceGLInfo, Bool.false_eq_true, if_false, hne, DeviceMap.find]
  · have he : List.isEmpty ([] : DeviceMap) = true := rfl
    simp only [GetDeviceGLInfo, if_true, he, fill_eq, DeviceMap.find]

/-- C13: for every name that is a key of the static table, `GetDeviceGLInfo` returns true
and writes that entry's family and revision into the output parameters, on the first call
(empty static map, which the call fills) as well as on a later call (filled static map);
for "Tahiti" the values are 110 and 0. -/
theorem GetDeviceGLInfo_known_device (device_name : String) (family revision f0 r0 : Nat)
    (hkey : (device_name, (family, revision)) ∈ kGlBackendAssignments) :
    GetDeviceGLInfo [] device_name f0 r0 = (true, family, revision, kGlBackendAssignments) ∧
    GetDeviceGLInfo kGlBackendAssignments device_name f0 r0 =
      (true, family, revision, kGlBackendAssignments) ∧
    GetDeviceGLInfo [] "Tahiti" f0 r0 = (true, 110, 0, kGlBackendAssignments) ∧
    GetDeviceGLInfo kGlBackendAssignments "Tahiti" f0 r0 =
      (true, 110, 0, kGlBackendAssignments) := by
  have hl := lookup_assignment _ hkey
  have ht : kGlBackendAssignments.lookup "Tahiti" = some (110, 0) := by decide
  have h1 := GetDeviceGLInfo_eq true device_name f0 r0
  have h2 := GetDeviceGLInfo_eq false device_name f0 r0
  have h3 := GetDeviceGLInfo_eq true "Tahiti" f0 r0
  have h4 := GetDeviceGLInfo_eq false "Tahiti" f0 r0
  simp only [hl, ht, if_true, Bool.false_eq_true, if_false] at h1 h2 h3 h4
  exact ⟨h1, h2, h3, h4⟩

/-- C13, instance: the device "gfx1030". -/
theorem GetDeviceGLInfo_known_device_witness :
    GetDeviceGLInfo [] "gfx1030" 7 8 = (true, 143, 40, kGlBackendAssignments) ∧
    GetDeviceGLInfo kGlBackendAssignments "gfx1030" 7 8 =
      (true, 143, 40, kGlBackendAssignments) :=
  ⟨(GetDeviceGLInfo_known_device "gfx1030" 143 40 7 8 (by decide)).1,
    (GetDeviceGLInfo_known_device "gfx1030" 143 40 7 8 (by decide)).2.1⟩

/-- C14: for every name that is not a key of the static table, `GetDeviceGLInfo` returns
false and both output parameters keep the values they had before the call, on the first
call as well as on a later call. -/
theorem GetDeviceGLInfo_unknown_device (device_name : String) (f0 r0 : Nat)
    (hkey : ∀ e ∈ kGlBackendAssignments, e.1 ≠ device_name) :
    GetDeviceGLInfo [] device_name f0 r0 = (false, f0, r0, kGlBackendAssignments) ∧
    GetDeviceGLInfo kGlBackendAssignments device_name f0 r0 =
      (false, f0, r0, kGlBackendAssignments) := by
  have hl : kGlBackendAssignments.lookup device_name = none := by
    rw [List.lookup_eq_none_iff]
    intro e he
    simp only [bne_iff_ne, ne_eq]
    exact fun h => hkey e he h.symm
  have h1 := GetDeviceGLInfo_eq true device_name f0 r0
  have h2 := GetDeviceGLInfo_eq false device_name f0 r0
  simp only [hl, if_true, Bool.false_eq_true, if_false] at h1 h2
  exact ⟨h1, h2⟩

/-- C14, instance: the name "tahiti" differs from the key "Tahiti" in letter case. -/
theorem GetDeviceGLInfo_unknown_device_witness :
    GetDeviceGLInfo [] "tahiti" 7 8 = (false, 7, 8, kGlBackendAssignments) ∧
    GetDeviceGLInfo kGlBackendAssignments "tahiti" 7 8 = (false, 7, 8, kGlBackendAssignments) :=
  GetDeviceGLInfo_unknown_device "tahiti" 7 8 (by decide)

theorem mem_eraseDevices (disabled device_list : List String) (d : String) :
    d ∈ eraseDevices disabled device_list ↔ d ∈ device_list ∧ d ∉ disabled := by
  unfold eraseDevices
  induction disabled generalizing device_list with
  | nil => simp
  | cons x xs ih =>
    rw [List.foldl_cons, ih]
    simp only [List.mem_filter, bne_iff_ne, ne_eq, List.mem_cons, not_or]
    tauto

/-- C16: `GetSupportedDevices` returns the boolean of the host enumeration; when it is true
the resulting set is the host-enumerated set without the members of the disabled-device
set; the disabled-device set, which `GetDisabledDevices` returns, is empty, so the
resulting set is the host-enumerated set unchanged, whether the boolean is true or false. -/
theorem GetSupportedDevices_spec (GetAllGraphicsCards : List String → Bool × List String)
    (device_list : List String) :
    (GetSupportedDevices GetAllGraphicsCards device_list).1 = (GetAllGraphicsCards device_list).1 ∧
    ((GetAllGraphicsCards device_list).1 = true → ∀ d : String,
      d ∈ (GetSupportedDevices GetAllGraphicsCards device_list).2 ↔
        d ∈ (GetAllGraphicsCards device_list).2 ∧ d ∉ GetDisabledDevices) ∧
    GetDisabledDevices = [] ∧
    (GetSupportedDevices GetAllGraphicsCards device_list).2 = (GetAllGraphicsCards device_list).2 := by
  refine ⟨rfl, ?_, rfl, ?_⟩
  · intro h d
    simp only [GetSupportedDevices, h, if_true, GetDisabledDevices]
    exact mem_eraseDevices _ _ d
  · simp only [GetSupportedDevices]
    split <;> rfl

/-! ## The version probe -/

theorem beforeQuote_eq (vcPath rest : String) (h : ∀ c ∈ vcPath.data, c ≠ '"') :
    beforeQuote (vcPath ++ " " ++ "\"" ++ rest) = vcPath.data ++ [' '] := by
  unfold beforeQuote
  have h1 : (vcPath ++ " " ++ "\"" ++ rest).data = (vcPath.data ++ [' ']) ++ ('"' :: rest.data) := by
    simp only [String.data_append, List.append_assoc]
    rfl
  rw [h1, List.takeWhile_append_of_pos, List.takeWhile_cons_of_neg (by decide), List.append_nil]
  intro c hc
  rcases List.mem_append.mp hc with hc | hc
  · simpa using h c hc
  · rw [List.mem_singleton.mp hc]; decide

/-- The effects of `GetOpenGLVersion`: one print and one launch. -/
theorem GetOpenGLVersion_performed (env : Env) (sp : Bool) (buf : gtString) (w : World) :
    performed w (GetOpenGLVersion env sp buf w).2.2 =
      [Effect.print (GetOpenGLVersionCmd (GetVirtualContextPath env.target)) sp,
       Effect.launch (GetOpenGLVersionCmd (GetVirtualContextPath env.target)) false
        (env.osExecAndGrabOutput w.launches
          (GetOpenGLVersionCmd (GetVirtualContextPath env.target)) false)] := by
  simp [GetOpenGLVersion, osExecAndGrabOutput, PrintCmdLine, performed]

/-- C15: the command of `GetOpenGLVersion` starts with the same executable path as the
command of `Compile`; its quoted argument splits on semicolons into 29 pieces, as many as
the argument of `Compile` for a request without semicolons in its paths; all pieces are
empty except the one at index 21, which is "version"; and at index 21 the argument of
`Compile` has its empty field, preceded by the six input paths and followed by the six IL
output paths. -/
theorem GetOpenGLVersion_command_shape (env : Env) (gl : OpenglOptions) (sp : Bool)
    (buf : gtString) (w : World)
    (hclean : ∀ p ∈ allPaths gl, ';' ∉ p.chars) :
    launchEffects (performed w (GetOpenGLVersion env sp buf w).2.2) =
      [(GetOpenGLVersionCmd (GetVirtualContextPath env.target), false,
        env.osExecAndGrabOutput w.launches
          (GetOpenGLVersionCmd (GetVirtualContextPath env.target)) false)] ∧
    beforeQuote (GetOpenGLVersionCmd (GetVirtualContextPath env.target)) =
      beforeQuote (CompileCmd (GetVirtualContextPath env.target) gl) ∧
    splitOnChar ';' (quotedArgument (GetOpenGLVersionCmd (GetVirtualContextPath env.target))) =
      List.replicate 21 [] ++ ["version".data] ++ List.replicate 7 [] ∧
    (splitOnChar ';'
        (quotedArgument (GetOpenGLVersionCmd (GetVirtualContextPath env.target)))).length = 29 ∧
    (splitOnChar ';'
        (quotedArgument (CompileCmd (GetVirtualContextPath env.target) gl))).length = 29 ∧
    (splitOnChar ';'
        (quotedArgument (CompileCmd (GetVirtualContextPath env.target) gl)))[21]? = some [] ∧
    ((splitOnChar ';'
        (quotedArgument (CompileCmd (GetVirtualContextPath env.target) gl))).drop 15).take 6 =
      [gl.pipeline_shaders.vertex_shader.chars,
       gl.pipeline_shaders.tessellation_control_shader.chars,
       gl.pipeline_shaders.tessellation_evaluation_shader.chars,
       gl.pipeline_shaders.geometry_shader.chars,
       gl.pipeline_shaders.fragment_shader.chars,
       gl.pipeline_shaders.compute_shader.chars] ∧
    ((splitOnChar ';'
        (quotedArgument (CompileCmd (GetVirtualContextPath env.target) gl))).drop 22).take 6 =
      [gl.il_disassembly_output_files.vertex_shader.chars,
       gl.il_disassembly_output_files.tessellation_control_shader.chars,
       gl.il_disassembly_output_files.tessellation_evaluation_shader.chars,
       gl.il_disassembly_output_files.geometry_shader.chars,
       gl.il_disassembly_output_files.fragment_shader.chars,
       gl.il_disassembly_output_files.compute_shader.chars] := by
  have hv : splitOnChar ';'
      (quotedArgument (GetOpenGLVersionCmd (GetVirtualContextPath env.target))) =
      List.replicate 21 [] ++ ["version".data] ++ List.replicate 7 [] := by
    cases env.target <;> decide
  refine ⟨?_, ?_, hv, ?_, ?_, ?_, ?_, ?_⟩
  · rw [GetOpenGLVersion_performed]
    rfl
  · rw [CompileCmd_eq, String.append_assoc _ (joinTerminated (specFields gl)),
      beforeQuote_eq _ _ (GetVirtualContextPath_no_quote env.target)]
    cases env.target <;> decide
  · rw [hv]; rfl
  · rw [CompileCmd_pieces env.target gl hclean]; rfl
  · rw [CompileCmd_pieces env.target gl hclean]; rfl
  · rw [CompileCmd_pieces env.target gl hclean]; rfl
  · rw [CompileCmd_pieces env.target gl hclean]; rfl

/-- C15, instance: the six-stage request on Linux. -/
theorem GetOpenGLVersion_command_shape_witness :
    (splitOnChar ';' (quotedArgument
        (GetOpenGLVersionCmd (GetVirtualContextPath BuildTarget.linux)))).length = 29 ∧
    (splitOnChar ';' (quotedArgument
        (CompileCmd (GetVirtualContextPath BuildTarget.linux) fullPipelineOptions)))[21]? =
      some [] :=
  ⟨(GetOpenGLVersion_command_shape (scriptedEnv [] []) fullPipelineOptions false
      (gtString.L "") World.init (by decide)).2.2.2.1,
    (GetOpenGLVersion_command_shape (scriptedEnv [] []) fullPipelineOptions false
      (gtString.L "") World.init (by decide)).2.2.2.2.2.1⟩

/-- C19: `GetOpenGLVersion` launches the external tool exactly once and never sleeps, and
its boolean result is the launch flag of that launch, whatever text was captured. -/
theorem GetOpenGLVersion_single_launch (env : Env) (sp : Bool) (buf : gtString) (w : World) :
    timing (performed w (GetOpenGLVersion env sp buf w).2.2) = [Timing.launch] ∧
    launchOutcomes (performed w (GetOpenGLVersion env sp buf w).2.2) =
      [env.osExecAndGrabOutput w.launches
        (GetOpenGLVersionCmd (GetVirtualContextPath env.target)) false] ∧
    (GetOpenGLVersion env sp buf w).1 =
      (env.osExecAndGrabOutput w.launches
        (GetOpenGLVersionCmd (GetVirtualContextPath env.target)) false).launch_succeeded := by
  rw [GetOpenGLVersion_performed]
  exact ⟨rfl, rfl, rfl⟩

/-! ## Probes of the verifier, visibility of retries, null singleton -/

theorem mem_ite_nil (c : Prop) [Decidable c] (l : List Effect) (e : Effect) :
    e ∈ (if c then l else []) ↔ c ∧ e ∈ l := by
  split <;> simp [*]

/-- C17, as stated, fails: for the compute-only request with all four categories required,
when no file exists only the ISA and IL files are probed (the required program binary and
statistics file are not), and when the ISA and IL files exist the binary is probed as well;
the files probed depend on the outcome of the probes. -/
theorem VerifyVirtualContextOutput_probes_depend_on_outcomes :
    computeOnlyOptions.is_amd_isa_binaries_required = true ∧
    computeOnlyOptions.is_stats_required = true ∧
    probes (performed World.init
        (VerifyVirtualContextOutput (scriptedEnv [] []) computeOnlyOptions World.init).2) =
      [(OutputSlot.isa Stage.compute, "k.isa"), (OutputSlot.il Stage.compute, "k.il")] ∧
    probes (performed World.init
        (VerifyVirtualContextOutput (scriptedEnv [] ["k.isa", "k.il"]) computeOnlyOptions
          World.init).2) =
      [(OutputSlot.isa Stage.compute, "k.isa"), (OutputSlot.il Stage.compute, "k.il"),
       (OutputSlot.binary, "k.bin")] := by
  decide

/-- C17, amended: the ISA and IL files of the stages with a non-empty input path are probed
whenever their category is required, whatever the outcome of any probe; the program binary
is probed exactly when binaries are required and every ISA and IL check passed; the
statistics files of the stages with a non-empty input path are probed exactly when
statistics are required and every ISA, IL and binary check passed. -/
theorem VerifyVirtualContextOutput_probe_schedule (env : Env) (o : OpenglOptions) (w : World) :
    (∀ (s : Stage) (path : String),
      (OutputSlot.isa s, path) ∈ probes (performed w (VerifyVirtualContextOutput env o w).2) ↔
        o.is_amd_isa_disassembly_required = true ∧ (o.pipeline_shaders.get s).isEmpty = false ∧
        path = (o.isa_disassembly_output_files.get s).asASCIICharArray) ∧
    (∀ (s : Stage) (path : String),
      (OutputSlot.il s, path) ∈ probes (performed w (VerifyVirtualContextOutput env o w).2) ↔
        o.is_il_disassembly_required = true ∧ (o.pipeline_shaders.get s).isEmpty = false ∧
        path = (o.il_disassembly_output_files.get s).asASCIICharArray) ∧
    (∀ path : String,
      (OutputSlot.binary, path) ∈ probes (performed w (VerifyVirtualContextOutput env o w).2) ↔
        o.is_amd_isa_binaries_required = true ∧
        path = o.program_binary_filename.asASCIICharArray ∧
        (o.is_amd_isa_disassembly_required = true →
          groupOk env o.pipeline_shaders o.isa_disassembly_output_files = true) ∧
        (o.is_il_disassembly_required = true →
          groupOk env o.pipeline_shaders o.il_disassembly_output_files = true)) ∧
    (∀ (s : Stage) (path : String),
      (OutputSlot.stats s, path) ∈ probes (performed w (VerifyVirtualContextOutput env o w).2) ↔
        o.is_stats_required = true ∧ (o.pipeline_shaders.get s).isEmpty = false ∧
        path = (o.stats_output_files.get s).asASCIICharArray ∧
        (o.is_amd_isa_disassembly_required = true →
          groupOk env o.pipeline_shaders o.isa_disassembly_output_files = true) ∧
        (o.is_il_disassembly_required = true →
          groupOk env o.pipeline_shaders o.il_disassembly_output_files = true) ∧
        (o.is_amd_isa_binaries_required = true →
          env.IsFilePresent o.program_binary_filename.asASCIICharArray = true)) := by
  rw [VerifyVirtualContextOutput_eq, performed_append]
  simp only [mem_probes, verifyProbes, List.mem_append, mem_ite_nil, mem_groupProbes,
    List.mem_singleton, Effect.probe.injEq, OutputSlot.isa.injEq, OutputSlot.il.injEq,
    OutputSlot.stats.injEq, reduceCtorEq, false_and, and_false, exists_false, or_false, false_or,
    Bool.and_eq_true, Bool.or_eq_true, Bool.not_eq_true']
  refine ⟨?_, ?_, ?_, ?_⟩
  · intro s path
    constructor
    · rintro ⟨h, t, ht, rfl, rfl⟩; exact ⟨h, ht, rfl⟩
    · rintro ⟨h, hs, rfl⟩; exact ⟨h, s, hs, rfl, rfl⟩
  · intro s path
    constructor
    · rintro ⟨h, t, ht, rfl, rfl⟩; exact ⟨h, ht, rfl⟩
    · rintro ⟨h, hs, rfl⟩; exact ⟨h, s, hs, rfl, rfl⟩
  · intro path
    cases o.is_amd_isa_disassembly_required <;> cases o.is_il_disassembly_required <;>
      cases o.is_amd_isa_binaries_required <;>
      cases groupOk env o.pipeline_shaders o.isa_disassembly_output_files <;>
      cases groupOk env o.pipeline_shaders o.il_disassembly_output_files <;> simp
  · intro s path
    have key : (∃ t : Stage, (o.pipeline_shaders.get t).isEmpty = false ∧ s = t ∧
        path = (o.stats_output_files.get t).asASCIICharArray) ↔
        ((o.pipeline_shaders.get s).isEmpty = false ∧
          path = (o.stats_output_files.get s).asASCIICharArray) := by
      constructor
      · rintro ⟨t, ht, rfl, rfl⟩; exact ⟨ht, rfl⟩
      · rintro ⟨hs, rfl⟩; exact ⟨s, hs, rfl, rfl⟩
    rw [key]
    cases o.is_amd_isa_disassembly_required <;> cases o.is_il_disassembly_required <;>
      cases o.is_amd_isa_binaries_required <;> cases o.is_stats_required <;>
      cases groupOk env o.pipeline_shaders o.isa_disassembly_output_files <;>
      cases groupOk env o.pipeline_shaders o.il_disassembly_output_files <;>
      cases env.IsFilePresent o.program_binary_filename.asASCIICharArray <;> simp

theorem verifyValue_congr (env1 env2 : Env) (o : OpenglOptions)
    (h : env1.IsFilePresent = env2.IsFilePresent) : verifyValue env1 o = verifyValue env2 o := by
  simp only [verifyValue, groupOk, h]

/-- C18: two runs of `Compile` on the same request with the same file-existence oracle and
a non-null device-info singleton, whose final attempts return the same launch flag and the
same captured text, return the same status and the same text, whatever the earlier
attempts, the cancel flag, the print flag, the caller's buffer and the initial world
were. -/
theorem Compile_depends_on_final_attempt_only (env1 env2 : Env) (gl : OpenglOptions)
    (cancel1 cancel2 sp1 sp2 : Bool) (buf1 buf2 : gtString) (w1 w2 : World) (a : ExecOutcome)
    (hdev1 : env1.deviceInfoInstance = true) (hdev2 : env2.deviceInfoInstance = true)
    (hfiles : env1.IsFilePresent = env2.IsFilePresent)
    (hfinal1 : finalAttempt (performed w1 (Compile env1 gl cancel1 sp1 buf1 w1).world) = some a)
    (hfinal2 : finalAttempt (performed w2 (Compile env2 gl cancel2 sp2 buf2 w2).world) = some a) :
    (Compile env1 gl cancel1 sp1 buf1 w1).status = (Compile env2 gl cancel2 sp2 buf2 w2).status ∧
    (Compile env1 gl cancel1 sp1 buf1 w1).virtual_context_output =
      (Compile env2 gl cancel2 sp2 buf2 w2).virtual_context_output := by
  rw [Compile_finalAttempt env1 gl cancel1 sp1 buf1 w1 hdev1] at hfinal1
  rw [Compile_finalAttempt env2 gl cancel2 sp2 buf2 w2 hdev2] at hfinal2
  have ha1 : finalOutcome (attemptOutcome env1 gl cancel1 w1) = a := Option.some.inj hfinal1
  have ha2 : finalOutcome (attemptOutcome env2 gl cancel2 w2) = a := Option.some.inj hfinal2
  have hc1 := Compile_classify env1 gl cancel1 sp1 buf1 w1 hdev1
  have hc2 := Compile_classify env2 gl cancel2 sp2 buf2 w2 hdev2
  rw [ha1, verifyValue_congr env1 env2 gl hfiles] at hc1
  rw [ha2, ← hc1] at hc2
  exact ⟨(congrArg Prod.fst hc2).symm, (congrArg Prod.snd hc2).symm⟩

/-- C18, instance: one run succeeds at the first attempt, the other one only at the third
attempt after a failed launch and an empty output; both end with the same final attempt. -/
theorem Compile_depends_on_final_attempt_only_witness :
    (Compile (scriptedEnv [⟨true, gtString.L "compiled ok"⟩] ["vert.isa"])
        vertexOnlyOptions false false (gtString.L "") World.init).status =
      (Compile (scriptedEnv [⟨false, gtString.L "error: busy"⟩, ⟨true, gtString.L ""⟩,
          ⟨true, gtString.L "compiled ok"⟩] ["vert.isa"])
        vertexOnlyOptions true true (gtString.L "stale") World.init).status ∧
    (Compile (scriptedEnv [⟨true, gtString.L "compiled ok"⟩] ["vert.isa"])
        vertexOnlyOptions false false (gtString.L "") World.init).virtual_context_output =
      (Compile (scriptedEnv [⟨false, gtString.L "error: busy"⟩, ⟨true, gtString.L ""⟩,
          ⟨true, gtString.L "compiled ok"⟩] ["vert.isa"])
        vertexOnlyOptions true true (gtString.L "stale") World.init).virtual_context_output :=
  Compile_depends_on_final_attempt_only
    (scriptedEnv [⟨true, gtString.L "compiled ok"⟩] ["vert.isa"])
    (scriptedEnv [⟨false, gtString.L "error: busy"⟩, ⟨true, gtString.L ""⟩,
      ⟨true, gtString.L "compiled ok"⟩] ["vert.isa"])
    vertexOnlyOptions false true false true (gtString.L "") (gtString.L "stale")
    World.init World.init ⟨true, gtString.L "compiled ok"⟩
    (by decide) (by decide) rfl (by decide) (by decide)

/-- C20: when the device-info singleton is null, `Compile` returns `kBeStatusSuccess` with an
empty text, whatever the caller's buffer held, and performs no effect: no command is
printed, nothing is launched, there is no sleep and no file is probed. -/
theorem Compile_null_singleton (env : Env) (gl : OpenglOptions) (cancel sp : Bool)
    (buf : gtString) (w : World) (hdev : env.deviceInfoInstance = false) :
    (Compile env gl cancel sp buf w).status = beStatus.kBeStatusSuccess ∧
    (Compile env gl cancel sp buf w).virtual_context_output = ⟨[]⟩ ∧
    (Compile env gl cancel sp buf w).world = w ∧
    performed w (Compile env gl cancel sp buf w).world = [] := by
  rw [Compile_of_null env gl cancel sp buf w hdev]
  refine ⟨rfl, rfl, rfl, ?_⟩
  simp [performed]

/-- C20, instance: the vertex ISA file is required and missing and the tool would fail to
launch, yet the status is `kBeStatusSuccess`. -/
theorem Compile_null_singleton_witness :
    (nullSingletonEnv [] []).deviceInfoInstance = false ∧
    (VerifyVirtualContextOutput (nullSingletonEnv [] []) vertexOnlyOptions World.init).1 = false ∧
    (Compile (nullSingletonEnv [] []) vertexOnlyOptions false true (gtString.L "stale")
        World.init).status = beStatus.kBeStatusSuccess ∧
    (Compile (nullSingletonEnv [] []) vertexOnlyOptions false true (gtString.L "stale")
        World.init).virtual_context_output = ⟨[]⟩ ∧
    (Compile (nullSingletonEnv [] []) vertexOnlyOptions false true (gtString.L "stale")
        World.init).world = World.init ∧
    performed World.init (Compile (nullSingletonEnv [] []) vertexOnlyOptions false true
        (gtString.L "stale") World.init).world = [] :=
  ⟨by decide, by decide,
    Compile_null_singleton (nullSingletonEnv [] []) vertexOnlyOptions false true
      (gtString.L "stale") World.init (by decide)⟩

end BeProgramBuilderOpengl
